import Mathlib

/-!
# The VMware guest hypercall transport (arch/x86/include/asm/vmware.h)

A shallow embedding of the header for an x86-64 guest.

* Values of type `unsigned long` and the 64-bit registers are natural numbers
  (a value of the C type is below `2 ^ 64`; no arithmetic is done on them by
  the header except the `|` of the high-bandwidth port flag).
* A pointer `uint32_t *` is an `Option Nat`: `none` is `NULL`, `some p` the
  address `p`.  Memory is a map from addresses to the objects stored there
  (a 32-bit output slot, or a 64-bit stack word).
* A store through a `uint32_t *` keeps the low 32 bits of the stored value.
* A store through `NULL` is a fault: the functions that store without a test
  return `none` there.
* The hypervisor is a parameter: an arbitrary function on the machine state
  at the trapping instruction.  So are the TDX module-call primitive, the CPU
  feature test and the replacement that the alternatives mechanism patched in.
-/

namespace Vmware

/-! ## Constants -/

/-- Modelled from the spec: the kernel macro BIT is not in the source file; bit 0
is the high-bandwidth flag and bit 1 the output-direction flag, so BIT n is
the word with only bit n set. -/
def BIT (n : Nat) : Nat := 1 <<< n

def VMWARE_HYPERVISOR_HB : Nat := BIT 0
def VMWARE_HYPERVISOR_OUT : Nat := BIT 1

def VMWARE_HYPERVISOR_PORT : Nat := 0x5658
def VMWARE_HYPERVISOR_PORT_HB : Nat := VMWARE_HYPERVISOR_PORT ||| VMWARE_HYPERVISOR_HB

def VMWARE_HYPERVISOR_MAGIC : Nat := 0x564D5868

def VMWARE_CMD_GETVERSION : Nat := 10
def VMWARE_CMD_GETHZ : Nat := 45
def VMWARE_CMD_GETVCPU_INFO : Nat := 68
def VMWARE_CMD_STEALCLOCK : Nat := 91

def CPUID_VMWARE_FEATURES_ECX_VMMCALL : Nat := BIT 0
def CPUID_VMWARE_FEATURES_ECX_VMCALL : Nat := BIT 1

def VMWARE_TDX_VENDOR_LEAF : Nat := 0x1AF7E4909
def VMWARE_TDX_HCALL_FUNC : Nat := 1

/-! ## Machine state -/

/-- A pointer to a 32-bit output slot; none is NULL. -/
abbrev Ptr := Option Nat

/-- Memory: the object stored at each address. -/
abbrev Mem := Nat → Nat

/-- The registers the header names: a, b, c, d, S (rsi), D (rdi), the frame
register rbp and the stack pointer rsp. -/
structure Regs where
  a : Nat
  b : Nat
  c : Nat
  d : Nat
  S : Nat
  D : Nat
  bp : Nat
  sp : Nat

structure Machine where
  regs : Regs
  mem : Mem

/-- The three instruction sequences of the low-bandwidth call. -/
inductive Transport where
  | port_in
  | vmmcall
  | vmcall
  deriving DecidableEq, Repr

/-- The two repeated string instructions of the high-bandwidth calls. -/
inductive StringInsn where
  | rep_outsb
  | rep_insb
  deriving DecidableEq, Repr

/-- Modelled from the spec: struct tdx_module_args is declared outside the source
file. It is the register-indexed record of the module call: the slots the
function names (r10, r11, r12, r13, r14, rbx, rdx, rsi, rdi) and the other
module-call registers rcx, r8, r9, r15. It has no rax and no rbp slot. -/
structure tdx_module_args where
  rcx : Nat
  rdx : Nat
  r8 : Nat
  r9 : Nat
  r10 : Nat
  r11 : Nat
  r12 : Nat
  r13 : Nat
  r14 : Nat
  r15 : Nat
  rbx : Nat
  rdi : Nat
  rsi : Nat

/-- What the header leaves to its environment: the state of
X86_FEATURE_TDX_GUEST, the mode byte, the replacement sequence the alternatives
mechanism patched over a call site (none while the original, mode-driven
sequence is in place), the hypervisor behind the trapping instructions, and the
module-call primitive vmware_tdx_hypercall_args. -/
structure Platform where
  tdx_guest : Bool
  vmware_hypercall_mode : Nat
  patched : Option Transport
  hypervisor : Transport → Machine → Machine
  hypervisor_hb : StringInsn → Machine → Machine
  vmware_tdx_hypercall_args : tdx_module_args → Mem → tdx_module_args × Mem

/-! ## Stores -/

/-- The store of a value into the 32-bit object at address p. -/
def store32 (m : Mem) (p : Nat) (v : Nat) : Mem :=
  fun q => if q = p then v % 2 ^ 32 else m q

/-- The guarded store of the TDX path: if (out) then *out = v. -/
def store_if (m : Mem) (out : Ptr) (v : Nat) : Mem :=
  match out with
  | some p => store32 m p v
  | none => m

/-- The unguarded store of an asm output operand (*out): a fault when out is
NULL. -/
def deref_store32 (m : Mem) (out : Ptr) (v : Nat) : Option Mem :=
  match out with
  | some p => some (store32 m p v)
  | none => none

/-! ## The TDX path -/

/-- The initializer of args in vmware_tdx_hypercall; the slots it does not name
are zero. -/
def vmware_tdx_hypercall_record (cmd in1 in3 in4 in5 in6 : Nat) : tdx_module_args :=
  { rcx := 0
    rdx := in3
    r8 := 0
    r9 := 0
    r10 := VMWARE_TDX_VENDOR_LEAF
    r11 := VMWARE_TDX_HCALL_FUNC
    r12 := VMWARE_HYPERVISOR_MAGIC
    r13 := cmd
    r14 := in6
    r15 := 0
    rbx := in1
    rdi := in5
    rsi := in4 }

def vmware_tdx_hypercall (prim : tdx_module_args → Mem → tdx_module_args × Mem)
    (cmd in1 in3 in4 in5 in6 : Nat) (out1 out2 out3 out4 out5 out6 : Ptr)
    (m : Mem) : Nat × Mem :=
  let r := prim (vmware_tdx_hypercall_record cmd in1 in3 in4 in5 in6) m
  let args := r.1
  let m := r.2
  let m := store_if m out1 args.rbx
  let m := store_if m out2 args.r13
  let m := store_if m out3 args.rdx
  let m := store_if m out4 args.rsi
  let m := store_if m out5 args.rdi
  let m := store_if m out6 args.r14
  (args.r12, m)

/-! ## The low-bandwidth instruction sequence -/

/-- The flags that cmpb sets and jg, je read. -/
structure Flags where
  zf : Bool
  sf : Bool
  of : Bool

/-- The instruction cmpb $imm, m on a byte m: the flags of the 8-bit
subtraction m - imm. -/
def cmpb (imm m : Nat) : Flags :=
  let x := m % 256
  let y := imm % 256
  let res := (x + 256 - y) % 256
  { zf := decide (res = 0)
    sf := decide (128 ≤ res)
    of := decide (128 ≤ x) != decide (128 ≤ y) && decide (128 ≤ res) != decide (128 ≤ x) }

/-- Whether jg jumps: ZF = 0 and SF = OF. -/
def jg (f : Flags) : Bool := !f.zf && (f.sf == f.of)

/-- Whether je jumps: ZF = 1. -/
def je (f : Flags) : Bool := f.zf

/-- The instruction movw $imm, %dx: the low 16 bits of d are replaced. -/
def movw_dx (imm : Nat) (s : Machine) : Machine :=
  { s with regs := { s.regs with d := s.regs.d / 2 ^ 16 * 2 ^ 16 + imm % 2 ^ 16 } }

/-- The branches of the original sequence of VMWARE_HYPERCALL:
cmpb $1, mode; jg 2f; je 1f; (port) ...; 1: vmmcall; 2: vmcall. -/
def VMWARE_HYPERCALL_select (mode : Nat) : Transport :=
  let f := cmpb CPUID_VMWARE_FEATURES_ECX_VMMCALL mode
  if jg f then Transport.vmcall
  else if je f then Transport.vmmcall
  else Transport.port_in

/-- The machine state at the trapping instruction of VMWARE_HYPERCALL, and that
instruction: the port sequence first loads the port into dx. -/
def VMWARE_HYPERCALL_trap (env : Platform) (s : Machine) : Transport × Machine :=
  let t := match env.patched with
    | some t => t
    | none => VMWARE_HYPERCALL_select env.vmware_hypercall_mode
  match t with
  | Transport.port_in => (Transport.port_in, movw_dx VMWARE_HYPERVISOR_PORT s)
  | Transport.vmmcall => (Transport.vmmcall, s)
  | Transport.vmcall => (Transport.vmcall, s)

/-- The sequence VMWARE_HYPERCALL: the machine state it leaves. -/
def VMWARE_HYPERCALL (env : Platform) (s : Machine) : Machine :=
  let ts := VMWARE_HYPERCALL_trap env s
  env.hypervisor ts.1 ts.2

/-! ## The low-bandwidth call shapes

Each takes the machine state before the call (the registers it does not load
keep their values) and returns the primary result and the memory after the
call, or none when it stores through NULL. -/

def vmware_hypercall1 (env : Platform) (cmd in1 : Nat) (s : Machine) : Option (Nat × Mem) :=
  if env.tdx_guest then
    some (vmware_tdx_hypercall env.vmware_tdx_hypercall_args cmd in1 0 0 0 0
      none none none none none none s.mem)
  else
    let post := VMWARE_HYPERCALL env
      { s with regs := { s.regs with
          a := VMWARE_HYPERVISOR_MAGIC, b := in1, c := cmd, d := 0 } }
    some (post.regs.a, post.mem)

def vmware_hypercall3 (env : Platform) (cmd in1 : Nat) (out1 out2 : Ptr) (s : Machine) :
    Option (Nat × Mem) :=
  if env.tdx_guest then
    some (vmware_tdx_hypercall env.vmware_tdx_hypercall_args cmd in1 0 0 0 0
      out1 out2 none none none none s.mem)
  else
    let post := VMWARE_HYPERCALL env
      { s with regs := { s.regs with
          a := VMWARE_HYPERVISOR_MAGIC, b := in1, c := cmd, d := 0 } }
    do
      let m ← deref_store32 post.mem out1 post.regs.b
      let m ← deref_store32 m out2 post.regs.c
      pure (post.regs.a, m)

def vmware_hypercall4 (env : Platform) (cmd in1 : Nat) (out1 out2 out3 : Ptr) (s : Machine) :
    Option (Nat × Mem) :=
  if env.tdx_guest then
    some (vmware_tdx_hypercall env.vmware_tdx_hypercall_args cmd in1 0 0 0 0
      out1 out2 out3 none none none s.mem)
  else
    let post := VMWARE_HYPERCALL env
      { s with regs := { s.regs with
          a := VMWARE_HYPERVISOR_MAGIC, b := in1, c := cmd, d := 0 } }
    do
      let m ← deref_store32 post.mem out1 post.regs.b
      let m ← deref_store32 m out2 post.regs.c
      let m ← deref_store32 m out3 post.regs.d
      pure (post.regs.a, m)

def vmware_hypercall5 (env : Platform) (cmd in1 in3 in4 in5 : Nat) (out2 : Ptr) (s : Machine) :
    Option (Nat × Mem) :=
  if env.tdx_guest then
    some (vmware_tdx_hypercall env.vmware_tdx_hypercall_args cmd in1 in3 in4 in5 0
      none out2 none none none none s.mem)
  else
    let post := VMWARE_HYPERCALL env
      { s with regs := { s.regs with
          a := VMWARE_HYPERVISOR_MAGIC, b := in1, c := cmd, d := in3, S := in4, D := in5 } }
    do
      let m ← deref_store32 post.mem out2 post.regs.c
      pure (post.regs.a, m)

def vmware_hypercall6 (env : Platform) (cmd in1 in3 : Nat) (out2 out3 out4 out5 : Ptr)
    (s : Machine) : Option (Nat × Mem) :=
  if env.tdx_guest then
    some (vmware_tdx_hypercall env.vmware_tdx_hypercall_args cmd in1 in3 0 0 0
      none out2 out3 out4 out5 none s.mem)
  else
    let post := VMWARE_HYPERCALL env
      { s with regs := { s.regs with
          a := VMWARE_HYPERVISOR_MAGIC, b := in1, c := cmd, d := in3 } }
    do
      let m ← deref_store32 post.mem out2 post.regs.c
      let m ← deref_store32 m out3 post.regs.d
      let m ← deref_store32 m out4 post.regs.S
      let m ← deref_store32 m out5 post.regs.D
      pure (post.regs.a, m)

def vmware_hypercall7 (env : Platform) (cmd in1 in3 in4 in5 : Nat) (out1 out2 out3 : Ptr)
    (s : Machine) : Option (Nat × Mem) :=
  if env.tdx_guest then
    some (vmware_tdx_hypercall env.vmware_tdx_hypercall_args cmd in1 in3 in4 in5 0
      out1 out2 out3 none none none s.mem)
  else
    let post := VMWARE_HYPERCALL env
      { s with regs := { s.regs with
          a := VMWARE_HYPERVISOR_MAGIC, b := in1, c := cmd, d := in3, S := in4, D := in5 } }
    do
      let m ← deref_store32 post.mem out1 post.regs.b
      let m ← deref_store32 m out2 post.regs.c
      let m ← deref_store32 m out3 post.regs.d
      pure (post.regs.a, m)

/-! ## The high-bandwidth calls -/

/-- The instructions before the string instruction: push %rbp; mov in6, %rbp.
The stack pointer is a 64-bit register. -/
def hb_prologue (in6 : Nat) (s : Machine) : Machine :=
  let sp := (s.regs.sp + 2 ^ 64 - 8) % 2 ^ 64
  { regs := { s.regs with sp := sp, bp := in6 }
    mem := fun q => if q = sp then s.regs.bp else s.mem q }

/-- The instruction after the string instruction: pop %rbp. -/
def hb_epilogue (s : Machine) : Machine :=
  { s with regs := { s.regs with bp := s.mem s.regs.sp, sp := (s.regs.sp + 8) % 2 ^ 64 } }

/-- The machine state at the string instruction of a high-bandwidth call: the
input operands are loaded, then push %rbp; mov in6, %rbp. -/
def hb_entry (cmd in2 in3 in4 in5 in6 : Nat) (s : Machine) : Machine :=
  hb_prologue in6
    { s with regs := { s.regs with
        a := VMWARE_HYPERVISOR_MAGIC, b := cmd, c := in2,
        d := in3 ||| VMWARE_HYPERVISOR_PORT_HB, S := in4, D := in5 } }

def vmware_hypercall_hb_out (env : Platform) (cmd in2 in3 in4 in5 in6 : Nat) (out1 : Ptr)
    (s : Machine) : Option (Nat × Machine) :=
  let post := hb_epilogue
    (env.hypervisor_hb StringInsn.rep_outsb (hb_entry cmd in2 in3 in4 in5 in6 s))
  do
    let m ← deref_store32 post.mem out1 post.regs.b
    pure (post.regs.a, { post with mem := m })

def vmware_hypercall_hb_in (env : Platform) (cmd in2 in3 in4 in5 in6 : Nat) (out1 : Ptr)
    (s : Machine) : Option (Nat × Machine) :=
  let post := hb_epilogue
    (env.hypervisor_hb StringInsn.rep_insb (hb_entry cmd in2 in3 in4 in5 in6 s))
  do
    let m ← deref_store32 post.mem out1 post.regs.b
    pure (post.regs.a, { post with mem := m })

/-! ## Reading a mode byte as a signed byte -/

/-- The value of a byte read as a signed 8-bit number. -/
def s8 (m : Nat) : Int :=
  if m % 256 < 128 then ((m % 256 : Nat) : Int) else ((m % 256 : Nat) : Int) - 256

/-! ## Notions used to state the properties -/

/-- The machine state s with the registers a, b, c, d, S, D set to the given
values; the frame register, the stack pointer and memory are those of s. -/
def loaded (s : Machine) (a b c d S D : Nat) : Machine :=
  { regs := { a := a, b := b, c := c, d := d, S := S, D := D, bp := s.regs.bp, sp := s.regs.sp }
    mem := s.mem }

/-! ## A mock platform for concrete evaluations -/

/-- A hypervisor that answers every call with values wider than 32 bits in the
a and b registers and touches nothing else. -/
def wide_hypervisor (s : Machine) : Machine :=
  { s with regs := { s.regs with a := 2 ^ 32 + 6, b := 2 ^ 32 + 5 } }

/-- A module-call primitive that answers with values wider than 32 bits in r12
and rbx and touches nothing else. -/
def wide_tdcall (args : tdx_module_args) (m : Mem) : tdx_module_args × Mem :=
  ({ args with r12 := 2 ^ 32 + 6, rbx := 2 ^ 32 + 5 }, m)

/-- A platform with the given TDX feature state and mode byte, the original
sequence in place, and the two mocks above. -/
def mock_platform (tdx : Bool) (mode : Nat) : Platform :=
  { tdx_guest := tdx
    vmware_hypercall_mode := mode
    patched := none
    hypervisor := fun _ s => wide_hypervisor s
    hypervisor_hb := fun _ s => wide_hypervisor s
    vmware_tdx_hypercall_args := wide_tdcall }

/-- A machine state before a call: zeroed memory, a frame and a stack pointer. -/
def boot_machine : Machine :=
  { regs := { a := 0, b := 0, c := 0, d := 0x12340000, S := 0, D := 0, bp := 0x7ff0, sp := 0x8000 }
    mem := fun _ => 0 }

/-! ## Lemmas on stores and on the selector -/

theorem store_if_at (m : Mem) (out : Ptr) (v q : Nat) :
    store_if m out v q = if out = some q then v % 2 ^ 32 else m q := by
  cases out with
  | none => simp [store_if]
  | some p =>
    by_cases h : q = p
    · subst h; simp [store_if, store32]
    · have h2 : ¬ p = q := fun e => h e.symm
      simp [store_if, store32, h, h2]

/-- The memory after vmware_tdx_hypercall, address by address: the last guarded
store that hits the address decides. -/
theorem tdx_mem_at (prim : tdx_module_args → Mem → tdx_module_args × Mem)
    (cmd in1 in3 in4 in5 in6 : Nat) (out1 out2 out3 out4 out5 out6 : Ptr) (m : Mem) (q : Nat) :
    (vmware_tdx_hypercall prim cmd in1 in3 in4 in5 in6 out1 out2 out3 out4 out5 out6 m).2 q =
      if out6 = some q then
        (prim (vmware_tdx_hypercall_record cmd in1 in3 in4 in5 in6) m).1.r14 % 2 ^ 32
      else if out5 = some q then
        (prim (vmware_tdx_hypercall_record cmd in1 in3 in4 in5 in6) m).1.rdi % 2 ^ 32
      else if out4 = some q then
        (prim (vmware_tdx_hypercall_record cmd in1 in3 in4 in5 in6) m).1.rsi % 2 ^ 32
      else if out3 = some q then
        (prim (vmware_tdx_hypercall_record cmd in1 in3 in4 in5 in6) m).1.rdx % 2 ^ 32
      else if out2 = some q then
        (prim (vmware_tdx_hypercall_record cmd in1 in3 in4 in5 in6) m).1.r13 % 2 ^ 32
      else if out1 = some q then
        (prim (vmware_tdx_hypercall_record cmd in1 in3 in4 in5 in6) m).1.rbx % 2 ^ 32
      else (prim (vmware_tdx_hypercall_record cmd in1 in3 in4 in5 in6) m).2 q := by
  simp only [vmware_tdx_hypercall, store_if_at]

theorem select_byte (m : Nat) :
    (VMWARE_HYPERCALL_select m = Transport.port_in ↔ s8 m ≤ 0) ∧
    (VMWARE_HYPERCALL_select m = Transport.vmmcall ↔ m % 256 = 1) ∧
    (VMWARE_HYPERCALL_select m = Transport.vmcall ↔ 1 < s8 m) := by
  have hb : m % 256 < 256 := Nat.mod_lt _ (by norm_num)
  have h1 : (1 <<< 0) % 256 = 1 := by decide
  simp only [VMWARE_HYPERCALL_select, cmpb, jg, je, s8, CPUID_VMWARE_FEATURES_ECX_VMMCALL,
    BIT, h1]
  generalize m % 256 = x at hb
  by_cases c1 : x = 0
  · subst c1; simp
  by_cases c2 : x = 1
  · subst c2; simp
  by_cases c4 : x = 128
  · subst c4; simp
  have e : (x + 256 - 1) % 256 = x - 1 := by omega
  have a1 : ¬ (x - 1 = 0) := by omega
  rw [e]
  by_cases c3 : x < 128
  · have a2 : ¬ (128 ≤ x - 1) := by omega
    have a3 : ¬ (128 ≤ x) := by omega
    simp only [a1, a2, a3, c3, c2]
    simp
    omega
  · have a3 : (128 ≤ x) := by omega
    have a2 : (128 ≤ x - 1) := by omega
    simp only [a1, a2, a3, c3, c2]
    simp
    omega

theorem s8_eq_one (m : Nat) (hm : m < 256) : (m % 256 = 1 ↔ m = 1) := by
  omega

theorem trap_unpatched (env : Platform) (s : Machine) (hp : env.patched = none) :
    VMWARE_HYPERCALL_trap env s =
      match VMWARE_HYPERCALL_select env.vmware_hypercall_mode with
      | Transport.port_in => (Transport.port_in, movw_dx VMWARE_HYPERVISOR_PORT s)
      | Transport.vmmcall => (Transport.vmmcall, s)
      | Transport.vmcall => (Transport.vmcall, s) := by
  simp [VMWARE_HYPERCALL_trap, hp]

theorem movw_dx_low (imm : Nat) (s : Machine) :
    (movw_dx imm s).regs.d % 2 ^ 16 = imm % 2 ^ 16 := by
  simp only [movw_dx]
  omega

theorem movw_dx_high (imm : Nat) (s : Machine) :
    (movw_dx imm s).regs.d / 2 ^ 16 = s.regs.d / 2 ^ 16 := by
  simp only [movw_dx]
  omega

/-! ## C6: the instruction selector -/

/-- C6: with the original (mode-driven) sequence in place, the mode byte alone
chooses the transport: the port trap (port 0x5658 loaded into dx, then the
port-in) when the byte read as a signed byte is at most 0, vmmcall when it is
1, vmcall when it is greater than 1; the three cases exclude each other and
cover every byte, and two calls under the same byte take the same sequence. -/
theorem mode_selects_one_sequence (env : Platform) (s : Machine)
    (hp : env.patched = none) (hm : env.vmware_hypercall_mode < 256) :
    (VMWARE_HYPERCALL_select env.vmware_hypercall_mode = Transport.port_in ↔
      s8 env.vmware_hypercall_mode ≤ 0) ∧
    (VMWARE_HYPERCALL_select env.vmware_hypercall_mode = Transport.vmmcall ↔
      env.vmware_hypercall_mode = CPUID_VMWARE_FEATURES_ECX_VMMCALL) ∧
    (VMWARE_HYPERCALL_select env.vmware_hypercall_mode = Transport.vmcall ↔
      1 < s8 env.vmware_hypercall_mode) ∧
    (s8 env.vmware_hypercall_mode ≤ 0 →
      VMWARE_HYPERCALL env s =
          env.hypervisor Transport.port_in (movw_dx VMWARE_HYPERVISOR_PORT s) ∧
        (movw_dx VMWARE_HYPERVISOR_PORT s).regs.d % 2 ^ 16 = 0x5658) ∧
    (env.vmware_hypercall_mode = 1 →
      VMWARE_HYPERCALL env s = env.hypervisor Transport.vmmcall s) ∧
    (1 < s8 env.vmware_hypercall_mode →
      VMWARE_HYPERCALL env s = env.hypervisor Transport.vmcall s) ∧
    (∀ (env2 : Platform) (s2 : Machine), env2.patched = none →
      env2.vmware_hypercall_mode = env.vmware_hypercall_mode →
      (VMWARE_HYPERCALL_trap env2 s2).1 = (VMWARE_HYPERCALL_trap env s).1) := by
  obtain ⟨h1, h2, h3⟩ := select_byte env.vmware_hypercall_mode
  have e1 : CPUID_VMWARE_FEATURES_ECX_VMMCALL = 1 := by decide
  rw [s8_eq_one _ hm] at h2
  refine ⟨h1, by rw [e1]; exact h2, h3, ?_, ?_, ?_, ?_⟩
  · intro h
    have := h1.2 h
    refine ⟨by simp [VMWARE_HYPERCALL, trap_unpatched env s hp, this], ?_⟩
    rw [movw_dx_low]
    decide
  · intro h
    have := h2.2 h
    simp [VMWARE_HYPERCALL, trap_unpatched env s hp, this]
  · intro h
    have := h3.2 h
    simp [VMWARE_HYPERCALL, trap_unpatched env s hp, this]
  · intro env2 s2 hp2 hm2
    rw [trap_unpatched env s hp, trap_unpatched env2 s2 hp2, hm2]
    cases VMWARE_HYPERCALL_select env.vmware_hypercall_mode <;> rfl

theorem mode_selects_one_sequence_witness :
    VMWARE_HYPERCALL (mock_platform false 0) boot_machine =
      (mock_platform false 0).hypervisor Transport.port_in
        (movw_dx VMWARE_HYPERVISOR_PORT boot_machine) :=
  ((mode_selects_one_sequence (mock_platform false 0) boot_machine rfl (by decide)).2.2.2.1
    (by decide)).1

/-! ## C9: the low word of d -/

theorem trap_cases (env : Platform) (s : Machine) :
    VMWARE_HYPERCALL_trap env s = (Transport.port_in, movw_dx VMWARE_HYPERVISOR_PORT s) ∨
    VMWARE_HYPERCALL_trap env s = (Transport.vmmcall, s) ∨
    VMWARE_HYPERCALL_trap env s = (Transport.vmcall, s) := by
  unfold VMWARE_HYPERCALL_trap
  cases env.patched with
  | none =>
    cases VMWARE_HYPERCALL_select env.vmware_hypercall_mode <;> simp
  | some t =>
    cases t <;> simp

theorem trap_fst_indep (env : Platform) (s s2 : Machine) :
    (VMWARE_HYPERCALL_trap env s).1 = (VMWARE_HYPERCALL_trap env s2).1 := by
  unfold VMWARE_HYPERCALL_trap
  cases env.patched with
  | none =>
    cases VMWARE_HYPERCALL_select env.vmware_hypercall_mode <;> rfl
  | some t =>
    cases t <;> rfl

theorem trap_patched (env : Platform) (s : Machine) (t : Transport)
    (hp : env.patched = some t) : (VMWARE_HYPERCALL_trap env s).1 = t := by
  unfold VMWARE_HYPERCALL_trap
  rw [hp]
  cases t <;> rfl

/-- C9: whichever way the sequence of a call site was chosen (the original
mode-driven sequence or a replacement patched over it), the sequence traps into
the hypervisor once. When the port method is the one run, the hypervisor sees
the d register with its low 16 bits replaced by the port 0x5658 and its higher
bits, like every other register and memory, unchanged; when vmmcall or vmcall
is run it sees the machine state as loaded. A patched site runs the replacement
patched in; the original sequence runs the port method exactly when the mode
byte is at most 0 as a signed byte, and vmmcall or vmcall exactly when it is
above 0. For vmware_hypercall5 the d register seen is in3 with the low word
replaced (port) or in3 itself (vmmcall, vmcall); for vmware_hypercall1, which
loads 0, it is 0x5658 on the port path. -/
theorem port_replaces_low_word_of_d (env : Platform) (s : Machine) :
    VMWARE_HYPERCALL env s = env.hypervisor (VMWARE_HYPERCALL_trap env s).1 (VMWARE_HYPERCALL_trap env s).2 ∧
    ((VMWARE_HYPERCALL_trap env s).1 = Transport.port_in →
      (VMWARE_HYPERCALL_trap env s).2.regs.d % 2 ^ 16 = VMWARE_HYPERVISOR_PORT ∧
      (VMWARE_HYPERCALL_trap env s).2.regs.d / 2 ^ 16 = s.regs.d / 2 ^ 16 ∧
      (VMWARE_HYPERCALL_trap env s).2.regs.a = s.regs.a ∧
      (VMWARE_HYPERCALL_trap env s).2.regs.b = s.regs.b ∧
      (VMWARE_HYPERCALL_trap env s).2.regs.c = s.regs.c ∧
      (VMWARE_HYPERCALL_trap env s).2.regs.S = s.regs.S ∧
      (VMWARE_HYPERCALL_trap env s).2.regs.D = s.regs.D ∧
      (VMWARE_HYPERCALL_trap env s).2.regs.bp = s.regs.bp ∧
      (VMWARE_HYPERCALL_trap env s).2.regs.sp = s.regs.sp ∧
      (VMWARE_HYPERCALL_trap env s).2.mem = s.mem) ∧
    ((VMWARE_HYPERCALL_trap env s).1 = Transport.vmmcall ∨
        (VMWARE_HYPERCALL_trap env s).1 = Transport.vmcall →
      (VMWARE_HYPERCALL_trap env s).2 = s) ∧
    (∀ t : Transport, env.patched = some t → (VMWARE_HYPERCALL_trap env s).1 = t) ∧
    (env.patched = none →
      ((VMWARE_HYPERCALL_trap env s).1 = Transport.port_in ↔ s8 env.vmware_hypercall_mode ≤ 0) ∧
      ((VMWARE_HYPERCALL_trap env s).1 = Transport.vmmcall ∨
          (VMWARE_HYPERCALL_trap env s).1 = Transport.vmcall ↔
        0 < s8 env.vmware_hypercall_mode)) ∧
    (∀ (cmd in1 in3 in4 in5 p : Nat), env.tdx_guest = false →
      (VMWARE_HYPERCALL_trap env s).1 = Transport.port_in →
      ∃ e : Machine,
        e.regs.d % 2 ^ 16 = 0x5658 ∧ e.regs.d / 2 ^ 16 = in3 / 2 ^ 16 ∧
        e.regs.a = VMWARE_HYPERVISOR_MAGIC ∧ e.regs.b = in1 ∧ e.regs.c = cmd ∧
        e.regs.S = in4 ∧ e.regs.D = in5 ∧
        vmware_hypercall5 env cmd in1 in3 in4 in5 (some p) s =
          some ((env.hypervisor Transport.port_in e).regs.a,
            store32 (env.hypervisor Transport.port_in e).mem p
              (env.hypervisor Transport.port_in e).regs.c)) ∧
    (∀ (cmd in1 in3 in4 in5 p : Nat), env.tdx_guest = false →
      (VMWARE_HYPERCALL_trap env s).1 = Transport.vmmcall ∨
          (VMWARE_HYPERCALL_trap env s).1 = Transport.vmcall →
      (loaded s VMWARE_HYPERVISOR_MAGIC in1 cmd in3 in4 in5).regs.d = in3 ∧
      vmware_hypercall5 env cmd in1 in3 in4 in5 (some p) s =
        some ((env.hypervisor (VMWARE_HYPERCALL_trap env s).1
            (loaded s VMWARE_HYPERVISOR_MAGIC in1 cmd in3 in4 in5)).regs.a,
          store32 (env.hypervisor (VMWARE_HYPERCALL_trap env s).1
              (loaded s VMWARE_HYPERVISOR_MAGIC in1 cmd in3 in4 in5)).mem p
            (env.hypervisor (VMWARE_HYPERCALL_trap env s).1
              (loaded s VMWARE_HYPERVISOR_MAGIC in1 cmd in3 in4 in5)).regs.c)) ∧
    (∀ (cmd in1 : Nat), env.tdx_guest = false →
      (VMWARE_HYPERCALL_trap env s).1 = Transport.port_in →
      ∃ e : Machine,
        e.regs.d = 0x5658 ∧
        e.regs.a = VMWARE_HYPERVISOR_MAGIC ∧ e.regs.b = in1 ∧ e.regs.c = cmd ∧
        vmware_hypercall1 env cmd in1 s =
          some ((env.hypervisor Transport.port_in e).regs.a,
            (env.hypervisor Transport.port_in e).mem)) := by
  obtain ⟨h1, h2, h3⟩ := select_byte env.vmware_hypercall_mode
  have hport : VMWARE_HYPERVISOR_PORT % 2 ^ 16 = VMWARE_HYPERVISOR_PORT := by decide
  refine ⟨rfl, ?_, ?_, ?_, ?_, ?_, ?_, ?_⟩
  · intro ht
    rcases trap_cases env s with hc | hc | hc
    · rw [hc]
      refine ⟨?_, ?_, rfl, rfl, rfl, rfl, rfl, rfl, rfl, rfl⟩
      · show (movw_dx VMWARE_HYPERVISOR_PORT s).regs.d % 2 ^ 16 = VMWARE_HYPERVISOR_PORT
        rw [movw_dx_low, hport]
      · show (movw_dx VMWARE_HYPERVISOR_PORT s).regs.d / 2 ^ 16 = s.regs.d / 2 ^ 16
        rw [movw_dx_high]
    · rw [hc] at ht; cases ht
    · rw [hc] at ht; cases ht
  · intro ht
    rcases trap_cases env s with hc | hc | hc
    · rw [hc] at ht
      rcases ht with ht | ht <;> cases ht
    · rw [hc]
    · rw [hc]
  · intro t hp
    exact trap_patched env s t hp
  · intro hp
    rw [trap_unpatched env s hp]
    cases hsel : VMWARE_HYPERCALL_select env.vmware_hypercall_mode with
    | port_in =>
      have := h1.1 hsel
      refine ⟨⟨fun _ => this, fun _ => rfl⟩, ⟨?_, ?_⟩⟩
      · intro hh
        rcases hh with hh | hh <;> cases hh
      · intro hh
        omega
    | vmmcall =>
      have hm := h2.1 hsel
      have hne : ¬ s8 env.vmware_hypercall_mode ≤ 0 := by
        intro hle
        have := h1.2 hle
        rw [hsel] at this
        cases this
      refine ⟨⟨?_, ?_⟩, ⟨fun _ => by omega, fun _ => Or.inl rfl⟩⟩
      · intro hh
        cases hh
      · intro hh
        exact absurd hh hne
    | vmcall =>
      have hne : ¬ s8 env.vmware_hypercall_mode ≤ 0 := by
        intro hle
        have := h1.2 hle
        rw [hsel] at this
        cases this
      refine ⟨⟨?_, ?_⟩, ⟨fun _ => by omega, fun _ => Or.inr rfl⟩⟩
      · intro hh
        cases hh
      · intro hh
        exact absurd hh hne
  · intro cmd in1 in3 in4 in5 p hf ht
    have ht2 : (VMWARE_HYPERCALL_trap env (loaded s VMWARE_HYPERVISOR_MAGIC in1 cmd in3 in4 in5)).1 = Transport.port_in := by
      rw [trap_fst_indep env _ s]; exact ht
    have hc : VMWARE_HYPERCALL_trap env (loaded s VMWARE_HYPERVISOR_MAGIC in1 cmd in3 in4 in5) =
        (Transport.port_in, movw_dx VMWARE_HYPERVISOR_PORT (loaded s VMWARE_HYPERVISOR_MAGIC in1 cmd in3 in4 in5)) := by
      rcases trap_cases env (loaded s VMWARE_HYPERVISOR_MAGIC in1 cmd in3 in4 in5) with hc | hc | hc
      · exact hc
      · rw [hc] at ht2; cases ht2
      · rw [hc] at ht2; cases ht2
    refine ⟨movw_dx VMWARE_HYPERVISOR_PORT (loaded s VMWARE_HYPERVISOR_MAGIC in1 cmd in3 in4 in5),
      ?_, ?_, rfl, rfl, rfl, rfl, rfl, ?_⟩
    · rw [movw_dx_low]; decide
    · rw [movw_dx_high]; rfl
    · have hl : ({ s with regs := { s.regs with
          a := VMWARE_HYPERVISOR_MAGIC, b := in1, c := cmd, d := in3, S := in4, D := in5 } } :
          Machine) = (loaded s VMWARE_HYPERVISOR_MAGIC in1 cmd in3 in4 in5) := rfl
      simp only [vmware_hypercall5, hf, VMWARE_HYPERCALL, hl, hc]
      simp [deref_store32]
  · intro cmd in1 in3 in4 in5 p hf ht
    have hi := trap_fst_indep env (loaded s VMWARE_HYPERVISOR_MAGIC in1 cmd in3 in4 in5) s
    have hc : VMWARE_HYPERCALL_trap env (loaded s VMWARE_HYPERVISOR_MAGIC in1 cmd in3 in4 in5) =
        ((VMWARE_HYPERCALL_trap env s).1, (loaded s VMWARE_HYPERVISOR_MAGIC in1 cmd in3 in4 in5)) := by
      rcases trap_cases env (loaded s VMWARE_HYPERVISOR_MAGIC in1 cmd in3 in4 in5) with hc | hc | hc
      · rw [hc] at hi
        rw [← hi] at ht
        rcases ht with ht | ht <;> cases ht
      · rw [hc] at hi
        rw [hc, ← hi]
      · rw [hc] at hi
        rw [hc, ← hi]
    refine ⟨rfl, ?_⟩
    have hl : ({ s with regs := { s.regs with
        a := VMWARE_HYPERVISOR_MAGIC, b := in1, c := cmd, d := in3, S := in4, D := in5 } } :
        Machine) = (loaded s VMWARE_HYPERVISOR_MAGIC in1 cmd in3 in4 in5) := rfl
    simp only [vmware_hypercall5, hf, VMWARE_HYPERCALL, hl, hc]
    simp [deref_store32]
  · intro cmd in1 hf ht
    have ht2 : (VMWARE_HYPERCALL_trap env
        (loaded s VMWARE_HYPERVISOR_MAGIC in1 cmd 0 s.regs.S s.regs.D)).1 =
          Transport.port_in := by
      rw [trap_fst_indep env _ s]; exact ht
    have hc : VMWARE_HYPERCALL_trap env
        (loaded s VMWARE_HYPERVISOR_MAGIC in1 cmd 0 s.regs.S s.regs.D) =
        (Transport.port_in, movw_dx VMWARE_HYPERVISOR_PORT
          (loaded s VMWARE_HYPERVISOR_MAGIC in1 cmd 0 s.regs.S s.regs.D)) := by
      rcases trap_cases env
        (loaded s VMWARE_HYPERVISOR_MAGIC in1 cmd 0 s.regs.S s.regs.D) with hc | hc | hc
      · exact hc
      · rw [hc] at ht2; cases ht2
      · rw [hc] at ht2; cases ht2
    refine ⟨movw_dx VMWARE_HYPERVISOR_PORT
      (loaded s VMWARE_HYPERVISOR_MAGIC in1 cmd 0 s.regs.S s.regs.D),
      ?_, rfl, rfl, rfl, ?_⟩
    · show 0 / 2 ^ 16 * 2 ^ 16 + VMWARE_HYPERVISOR_PORT % 2 ^ 16 = 0x5658
      decide
    · have hl : ({ s with regs := { s.regs with
          a := VMWARE_HYPERVISOR_MAGIC, b := in1, c := cmd, d := 0 } } :
          Machine) = loaded s VMWARE_HYPERVISOR_MAGIC in1 cmd 0 s.regs.S s.regs.D := rfl
      simp only [vmware_hypercall1, hf, VMWARE_HYPERCALL, hl, hc]
      simp

theorem port_replaces_low_word_of_d_witness :
    (VMWARE_HYPERCALL_trap (mock_platform false 0) boot_machine).2.regs.d % 2 ^ 16 = 0x5658 ∧
    (VMWARE_HYPERCALL_trap (mock_platform false 0) boot_machine).2.regs.d / 2 ^ 16 = 0x1234 ∧
    (VMWARE_HYPERCALL_trap (mock_platform false 2) boot_machine).2.regs.d = 0x12340000 ∧
    (VMWARE_HYPERCALL_trap { mock_platform false 2 with patched := some Transport.port_in }
      boot_machine).2.regs.d % 2 ^ 16 = 0x5658 :=
  ⟨((port_replaces_low_word_of_d (mock_platform false 0) boot_machine).2.1 (by decide)).1,
   ((port_replaces_low_word_of_d (mock_platform false 0) boot_machine).2.1 (by decide)).2.1,
   by
    have h := (port_replaces_low_word_of_d (mock_platform false 2) boot_machine).2.2.1
      (by decide)
    rw [h]
    rfl,
   ((port_replaces_low_word_of_d
      { mock_platform false 2 with patched := some Transport.port_in } boot_machine).2.1
        ((port_replaces_low_word_of_d
          { mock_platform false 2 with patched := some Transport.port_in }
            boot_machine).2.2.2.1 Transport.port_in rfl)).1⟩

/-! ## C4: the argument record of the TDX path -/

/-- C4: the record handed to the module-call primitive has r10 = 0x1AF7E4909,
r11 = 1, r12 = 0x564D5868, r13 = cmd, rbx = in1, rdx = in3, rsi = in4,
rdi = in5, r14 = in6, and zero in the slots the initializer does not name (rcx
among them; the record has no rax and no rbp slot); the magic and in6, which
the direct high-bandwidth path carries in rax and rbp, sit in r12 and r14, and
the command, which the direct low-bandwidth path carries in rcx, in r13; the
call depends on the primitive only through what it does to this record, and a
value the primitive leaves in the rcx slot is never read. -/
theorem tdx_record_layout (cmd in1 in3 in4 in5 in6 : Nat) :
    (vmware_tdx_hypercall_record cmd in1 in3 in4 in5 in6).r10 = 0x1AF7E4909 ∧
    (vmware_tdx_hypercall_record cmd in1 in3 in4 in5 in6).r11 = 1 ∧
    (vmware_tdx_hypercall_record cmd in1 in3 in4 in5 in6).r12 = 0x564D5868 ∧
    (vmware_tdx_hypercall_record cmd in1 in3 in4 in5 in6).r13 = cmd ∧
    (vmware_tdx_hypercall_record cmd in1 in3 in4 in5 in6).rbx = in1 ∧
    (vmware_tdx_hypercall_record cmd in1 in3 in4 in5 in6).rdx = in3 ∧
    (vmware_tdx_hypercall_record cmd in1 in3 in4 in5 in6).rsi = in4 ∧
    (vmware_tdx_hypercall_record cmd in1 in3 in4 in5 in6).rdi = in5 ∧
    (vmware_tdx_hypercall_record cmd in1 in3 in4 in5 in6).r14 = in6 ∧
    (vmware_tdx_hypercall_record cmd in1 in3 in4 in5 in6).rcx = 0 ∧
    (vmware_tdx_hypercall_record cmd in1 in3 in4 in5 in6).r8 = 0 ∧
    (vmware_tdx_hypercall_record cmd in1 in3 in4 in5 in6).r9 = 0 ∧
    (vmware_tdx_hypercall_record cmd in1 in3 in4 in5 in6).r15 = 0 ∧
    (∀ (in2 : Nat) (s : Machine),
      (hb_entry cmd in2 in3 in4 in5 in6 s).regs.a =
          (vmware_tdx_hypercall_record cmd in1 in3 in4 in5 in6).r12 ∧
        (hb_entry cmd in2 in3 in4 in5 in6 s).regs.bp =
          (vmware_tdx_hypercall_record cmd in1 in3 in4 in5 in6).r14) ∧
    (∀ (env : Platform) (s : Machine), env.tdx_guest = false →
      ∃ pre : Machine,
        pre.regs.a = (vmware_tdx_hypercall_record cmd in1 in3 in4 in5 in6).r12 ∧
        pre.regs.c = (vmware_tdx_hypercall_record cmd in1 in3 in4 in5 in6).r13 ∧
        vmware_hypercall1 env cmd in1 s =
          some ((VMWARE_HYPERCALL env pre).regs.a, (VMWARE_HYPERCALL env pre).mem)) ∧
    (∀ (prim prim2 : tdx_module_args → Mem → tdx_module_args × Mem)
        (out1 out2 out3 out4 out5 out6 : Ptr) (m : Mem),
      prim (vmware_tdx_hypercall_record cmd in1 in3 in4 in5 in6) m =
          prim2 (vmware_tdx_hypercall_record cmd in1 in3 in4 in5 in6) m →
        vmware_tdx_hypercall prim cmd in1 in3 in4 in5 in6 out1 out2 out3 out4 out5 out6 m =
          vmware_tdx_hypercall prim2 cmd in1 in3 in4 in5 in6
            out1 out2 out3 out4 out5 out6 m) ∧
    (∀ (prim : tdx_module_args → Mem → tdx_module_args × Mem) (x : Nat)
        (out1 out2 out3 out4 out5 out6 : Ptr) (m : Mem),
      vmware_tdx_hypercall (fun a m => ({ (prim a m).1 with rcx := x }, (prim a m).2))
          cmd in1 in3 in4 in5 in6 out1 out2 out3 out4 out5 out6 m =
        vmware_tdx_hypercall prim cmd in1 in3 in4 in5 in6
          out1 out2 out3 out4 out5 out6 m) := by
  refine ⟨rfl, rfl, rfl, rfl, rfl, rfl, rfl, rfl, rfl, rfl, rfl, rfl, rfl, ?_, ?_, ?_, ?_⟩
  · intro in2 s
    exact ⟨rfl, rfl⟩
  · intro env s hf
    refine ⟨loaded s VMWARE_HYPERVISOR_MAGIC in1 cmd 0 s.regs.S s.regs.D, rfl, rfl, ?_⟩
    simp [vmware_hypercall1, hf, loaded]
  · intro prim prim2 out1 out2 out3 out4 out5 out6 m h
    simp only [vmware_tdx_hypercall, h]
  · intro prim x out1 out2 out3 out4 out5 out6 m
    rfl

/-! ## C5: delegation under the TDX guest feature -/

/-- C5: with the TDX guest feature on, each low-bandwidth shape is
vmware_tdx_hypercall on its own arguments, with 0 for the inputs and NULL for
the outputs the shape lacks; hence two platforms with the feature on and the
same module-call primitive give the same result and memory, whatever their
mode byte, patched sequence and hypervisor. -/
theorem tdx_guest_delegates (env : Platform) (h : env.tdx_guest = true)
    (cmd in1 in3 in4 in5 : Nat) (out1 out2 out3 out4 out5 : Ptr) (s : Machine) :
    vmware_hypercall1 env cmd in1 s =
      some (vmware_tdx_hypercall env.vmware_tdx_hypercall_args cmd in1 0 0 0 0
        none none none none none none s.mem) ∧
    vmware_hypercall3 env cmd in1 out1 out2 s =
      some (vmware_tdx_hypercall env.vmware_tdx_hypercall_args cmd in1 0 0 0 0
        out1 out2 none none none none s.mem) ∧
    vmware_hypercall4 env cmd in1 out1 out2 out3 s =
      some (vmware_tdx_hypercall env.vmware_tdx_hypercall_args cmd in1 0 0 0 0
        out1 out2 out3 none none none s.mem) ∧
    vmware_hypercall5 env cmd in1 in3 in4 in5 out2 s =
      some (vmware_tdx_hypercall env.vmware_tdx_hypercall_args cmd in1 in3 in4 in5 0
        none out2 none none none none s.mem) ∧
    vmware_hypercall6 env cmd in1 in3 out2 out3 out4 out5 s =
      some (vmware_tdx_hypercall env.vmware_tdx_hypercall_args cmd in1 in3 0 0 0
        none out2 out3 out4 out5 none s.mem) ∧
    vmware_hypercall7 env cmd in1 in3 in4 in5 out1 out2 out3 s =
      some (vmware_tdx_hypercall env.vmware_tdx_hypercall_args cmd in1 in3 in4 in5 0
        out1 out2 out3 none none none s.mem) ∧
    (∀ env2 : Platform, env2.tdx_guest = true →
      env2.vmware_tdx_hypercall_args = env.vmware_tdx_hypercall_args →
      vmware_hypercall1 env2 cmd in1 s = vmware_hypercall1 env cmd in1 s ∧
      vmware_hypercall3 env2 cmd in1 out1 out2 s = vmware_hypercall3 env cmd in1 out1 out2 s ∧
      vmware_hypercall4 env2 cmd in1 out1 out2 out3 s =
        vmware_hypercall4 env cmd in1 out1 out2 out3 s ∧
      vmware_hypercall5 env2 cmd in1 in3 in4 in5 out2 s =
        vmware_hypercall5 env cmd in1 in3 in4 in5 out2 s ∧
      vmware_hypercall6 env2 cmd in1 in3 out2 out3 out4 out5 s =
        vmware_hypercall6 env cmd in1 in3 out2 out3 out4 out5 s ∧
      vmware_hypercall7 env2 cmd in1 in3 in4 in5 out1 out2 out3 s =
        vmware_hypercall7 env cmd in1 in3 in4 in5 out1 out2 out3 s) := by
  refine ⟨?_, ?_, ?_, ?_, ?_, ?_, ?_⟩
  · simp [vmware_hypercall1, h]
  · simp [vmware_hypercall3, h]
  · simp [vmware_hypercall4, h]
  · simp [vmware_hypercall5, h]
  · simp [vmware_hypercall6, h]
  · simp [vmware_hypercall7, h]
  · intro env2 h2 hprim
    refine ⟨?_, ?_, ?_, ?_, ?_, ?_⟩
    · simp [vmware_hypercall1, h, h2, hprim]
    · simp [vmware_hypercall3, h, h2, hprim]
    · simp [vmware_hypercall4, h, h2, hprim]
    · simp [vmware_hypercall5, h, h2, hprim]
    · simp [vmware_hypercall6, h, h2, hprim]
    · simp [vmware_hypercall7, h, h2, hprim]

theorem tdx_guest_delegates_witness :
    vmware_hypercall4 (mock_platform true 2) 68 0 (some 100) (some 104) (some 108) boot_machine =
      vmware_hypercall4 (mock_platform true 0) 68 0 (some 100) (some 104) (some 108)
        boot_machine :=
  ((tdx_guest_delegates (mock_platform true 0) rfl 68 0 0 0 0
    (some 100) (some 104) (some 108) none none boot_machine).2.2.2.2.2.2
      (mock_platform true 2) rfl rfl).2.2.1

theorem mod_facts (v : Nat) :
    v % 2 ^ 32 < 2 ^ 32 ∧ (v % 2 ^ 32 = v ↔ v < 2 ^ 32) := by
  refine ⟨Nat.mod_lt _ (by norm_num), ?_, ?_⟩
  · intro h
    rw [← h]
    exact Nat.mod_lt _ (by norm_num)
  · intro h
    exact Nat.mod_eq_of_lt h

/-! ## C3: the results of the TDX path -/

/-- C3, as amended: vmware_tdx_hypercall returns the r12 field of the record as
the primitive left it; an address that no non-null slot points to keeps the
content the primitive left there (so nothing is written for a null slot); and
a non-null slot holds the low 32 bits of its designated field (out1 from rbx,
out2 from r13, out3 from rdx, out4 from rsi, out5 from rdi, out6 from r14). The
stores run in the order out1 to out6, so of two slots with one address the
later decides. -/
theorem tdx_results_routing (prim : tdx_module_args → Mem → tdx_module_args × Mem)
    (cmd in1 in3 in4 in5 in6 : Nat) (out1 out2 out3 out4 out5 out6 : Ptr) (m : Mem) :
    (vmware_tdx_hypercall prim cmd in1 in3 in4 in5 in6 out1 out2 out3 out4 out5 out6 m).1 =
      (prim (vmware_tdx_hypercall_record cmd in1 in3 in4 in5 in6) m).1.r12 ∧
    (∀ q : Nat, out1 ≠ some q → out2 ≠ some q → out3 ≠ some q → out4 ≠ some q → out5 ≠ some q → out6 ≠ some q →
      (vmware_tdx_hypercall prim cmd in1 in3 in4 in5 in6 out1 out2 out3 out4 out5 out6 m).2 q =
        (prim (vmware_tdx_hypercall_record cmd in1 in3 in4 in5 in6) m).2 q) ∧
    (∀ p : Nat, out1 = some p → out2 ≠ some p → out3 ≠ some p → out4 ≠ some p → out5 ≠ some p → out6 ≠ some p →
      (vmware_tdx_hypercall prim cmd in1 in3 in4 in5 in6 out1 out2 out3 out4 out5 out6 m).2 p =
        (prim (vmware_tdx_hypercall_record cmd in1 in3 in4 in5 in6) m).1.rbx % 2 ^ 32) ∧
    (∀ p : Nat, out2 = some p → out3 ≠ some p → out4 ≠ some p → out5 ≠ some p → out6 ≠ some p →
      (vmware_tdx_hypercall prim cmd in1 in3 in4 in5 in6 out1 out2 out3 out4 out5 out6 m).2 p =
        (prim (vmware_tdx_hypercall_record cmd in1 in3 in4 in5 in6) m).1.r13 % 2 ^ 32) ∧
    (∀ p : Nat, out3 = some p → out4 ≠ some p → out5 ≠ some p → out6 ≠ some p →
      (vmware_tdx_hypercall prim cmd in1 in3 in4 in5 in6 out1 out2 out3 out4 out5 out6 m).2 p =
        (prim (vmware_tdx_hypercall_record cmd in1 in3 in4 in5 in6) m).1.rdx % 2 ^ 32) ∧
    (∀ p : Nat, out4 = some p → out5 ≠ some p → out6 ≠ some p →
      (vmware_tdx_hypercall prim cmd in1 in3 in4 in5 in6 out1 out2 out3 out4 out5 out6 m).2 p =
        (prim (vmware_tdx_hypercall_record cmd in1 in3 in4 in5 in6) m).1.rsi % 2 ^ 32) ∧
    (∀ p : Nat, out5 = some p → out6 ≠ some p →
      (vmware_tdx_hypercall prim cmd in1 in3 in4 in5 in6 out1 out2 out3 out4 out5 out6 m).2 p =
        (prim (vmware_tdx_hypercall_record cmd in1 in3 in4 in5 in6) m).1.rdi % 2 ^ 32) ∧
    (∀ p : Nat, out6 = some p →
      (vmware_tdx_hypercall prim cmd in1 in3 in4 in5 in6 out1 out2 out3 out4 out5 out6 m).2 p =
        (prim (vmware_tdx_hypercall_record cmd in1 in3 in4 in5 in6) m).1.r14 % 2 ^ 32) := by
  refine ⟨rfl, ?_, ?_, ?_, ?_, ?_, ?_, ?_⟩
  · intro q h1 h2 h3 h4 h5 h6
    rw [tdx_mem_at]
    simp [h1, h2, h3, h4, h5, h6]
  · intro p h h1 h2 h3 h4 h5
    rw [tdx_mem_at]
    simp [h, h1, h2, h3, h4, h5]
  · intro p h h2 h3 h4 h5
    rw [tdx_mem_at]
    simp [h, h2, h3, h4, h5]
  · intro p h h3 h4 h5
    rw [tdx_mem_at]
    simp [h, h3, h4, h5]
  · intro p h h4 h5
    rw [tdx_mem_at]
    simp [h, h4, h5]
  · intro p h h5
    rw [tdx_mem_at]
    simp [h, h5]
  · intro p h 
    rw [tdx_mem_at]
    simp [h]

/-- C3 as stated fails: the primitive leaves 2^32 + 5 in the rbx field, and the
slot out1 holds 5 after the call. -/
theorem tdx_slot_is_not_the_field :
    (vmware_tdx_hypercall wide_tdcall 68 0 0 0 0 0 (some 100) none none none none none
        boot_machine.mem).2 100 = 5 ∧
      (wide_tdcall (vmware_tdx_hypercall_record 68 0 0 0 0 0) boot_machine.mem).1.rbx =
        4294967301 ∧
      (vmware_tdx_hypercall wide_tdcall 68 0 0 0 0 0 (some 100) none none none none none
        boot_machine.mem).2 100 ≠
      (wide_tdcall (vmware_tdx_hypercall_record 68 0 0 0 0 0) boot_machine.mem).1.rbx := by
  decide

theorem tdx_results_routing_witness :
    (vmware_tdx_hypercall wide_tdcall 68 0 0 0 0 0 (some 100) (some 104) none none none none
        boot_machine.mem).2 100 =
      (wide_tdcall (vmware_tdx_hypercall_record 68 0 0 0 0 0) boot_machine.mem).1.rbx % 2 ^ 32 :=
  (tdx_results_routing wide_tdcall 68 0 0 0 0 0 (some 100) (some 104) none none none none
    boot_machine.mem).2.2.1 100 rfl (by decide) (by decide) (by decide) (by decide) (by decide)

/-! ## C10: the width of the output slots -/

/-- C10: vmware_tdx_hypercall leaves in each non-null slot (that no later slot
shares its address with) its designated 64-bit field reduced modulo 2^32: the
stored value is below 2^32 and equals the field exactly when the field is below
2^32; the returned value is the r12 field itself, not reduced. -/
theorem tdx_slots_are_32_bit (prim : tdx_module_args → Mem → tdx_module_args × Mem)
    (cmd in1 in3 in4 in5 in6 : Nat) (out1 out2 out3 out4 out5 out6 : Ptr) (m : Mem) :
    (vmware_tdx_hypercall prim cmd in1 in3 in4 in5 in6 out1 out2 out3 out4 out5 out6 m).1 =
      (prim (vmware_tdx_hypercall_record cmd in1 in3 in4 in5 in6) m).1.r12 ∧
    (∀ p : Nat, out1 = some p → out2 ≠ some p → out3 ≠ some p → out4 ≠ some p → out5 ≠ some p → out6 ≠ some p →
      (vmware_tdx_hypercall prim cmd in1 in3 in4 in5 in6 out1 out2 out3 out4 out5 out6 m).2 p =
          (prim (vmware_tdx_hypercall_record cmd in1 in3 in4 in5 in6) m).1.rbx % 2 ^ 32 ∧
        (vmware_tdx_hypercall prim cmd in1 in3 in4 in5 in6 out1 out2 out3 out4 out5 out6 m).2 p < 2 ^ 32 ∧
        ((vmware_tdx_hypercall prim cmd in1 in3 in4 in5 in6 out1 out2 out3 out4 out5 out6 m).2 p =
            (prim (vmware_tdx_hypercall_record cmd in1 in3 in4 in5 in6) m).1.rbx ↔
          (prim (vmware_tdx_hypercall_record cmd in1 in3 in4 in5 in6) m).1.rbx < 2 ^ 32)) ∧
    (∀ p : Nat, out2 = some p → out3 ≠ some p → out4 ≠ some p → out5 ≠ some p → out6 ≠ some p →
      (vmware_tdx_hypercall prim cmd in1 in3 in4 in5 in6 out1 out2 out3 out4 out5 out6 m).2 p =
          (prim (vmware_tdx_hypercall_record cmd in1 in3 in4 in5 in6) m).1.r13 % 2 ^ 32 ∧
        (vmware_tdx_hypercall prim cmd in1 in3 in4 in5 in6 out1 out2 out3 out4 out5 out6 m).2 p < 2 ^ 32 ∧
        ((vmware_tdx_hypercall prim cmd in1 in3 in4 in5 in6 out1 out2 out3 out4 out5 out6 m).2 p =
            (prim (vmware_tdx_hypercall_record cmd in1 in3 in4 in5 in6) m).1.r13 ↔
          (prim (vmware_tdx_hypercall_record cmd in1 in3 in4 in5 in6) m).1.r13 < 2 ^ 32)) ∧
    (∀ p : Nat, out3 = some p → out4 ≠ some p → out5 ≠ some p → out6 ≠ some p →
      (vmware_tdx_hypercall prim cmd in1 in3 in4 in5 in6 out1 out2 out3 out4 out5 out6 m).2 p =
          (prim (vmware_tdx_hypercall_record cmd in1 in3 in4 in5 in6) m).1.rdx % 2 ^ 32 ∧
        (vmware_tdx_hypercall prim cmd in1 in3 in4 in5 in6 out1 out2 out3 out4 out5 out6 m).2 p < 2 ^ 32 ∧
        ((vmware_tdx_hypercall prim cmd in1 in3 in4 in5 in6 out1 out2 out3 out4 out5 out6 m).2 p =
            (prim (vmware_tdx_hypercall_record cmd in1 in3 in4 in5 in6) m).1.rdx ↔
          (prim (vmware_tdx_hypercall_record cmd in1 in3 in4 in5 in6) m).1.rdx < 2 ^ 32)) ∧
    (∀ p : Nat, out4 = some p → out5 ≠ some p → out6 ≠ some p →
      (vmware_tdx_hypercall prim cmd in1 in3 in4 in5 in6 out1 out2 out3 out4 out5 out6 m).2 p =
          (prim (vmware_tdx_hypercall_record cmd in1 in3 in4 in5 in6) m).1.rsi % 2 ^ 32 ∧
        (vmware_tdx_hypercall prim cmd in1 in3 in4 in5 in6 out1 out2 out3 out4 out5 out6 m).2 p < 2 ^ 32 ∧
        ((vmware_tdx_hypercall prim cmd in1 in3 in4 in5 in6 out1 out2 out3 out4 out5 out6 m).2 p =
            (prim (vmware_tdx_hypercall_record cmd in1 in3 in4 in5 in6) m).1.rsi ↔
          (prim (vmware_tdx_hypercall_record cmd in1 in3 in4 in5 in6) m).1.rsi < 2 ^ 32)) ∧
    (∀ p : Nat, out5 = some p → out6 ≠ some p →
      (vmware_tdx_hypercall prim cmd in1 in3 in4 in5 in6 out1 out2 out3 out4 out5 out6 m).2 p =
          (prim (vmware_tdx_hypercall_record cmd in1 in3 in4 in5 in6) m).1.rdi % 2 ^ 32 ∧
        (vmware_tdx_hypercall prim cmd in1 in3 in4 in5 in6 out1 out2 out3 out4 out5 out6 m).2 p < 2 ^ 32 ∧
        ((vmware_tdx_hypercall prim cmd in1 in3 in4 in5 in6 out1 out2 out3 out4 out5 out6 m).2 p =
            (prim (vmware_tdx_hypercall_record cmd in1 in3 in4 in5 in6) m).1.rdi ↔
          (prim (vmware_tdx_hypercall_record cmd in1 in3 in4 in5 in6) m).1.rdi < 2 ^ 32)) ∧
    (∀ p : Nat, out6 = some p →
      (vmware_tdx_hypercall prim cmd in1 in3 in4 in5 in6 out1 out2 out3 out4 out5 out6 m).2 p =
          (prim (vmware_tdx_hypercall_record cmd in1 in3 in4 in5 in6) m).1.r14 % 2 ^ 32 ∧
        (vmware_tdx_hypercall prim cmd in1 in3 in4 in5 in6 out1 out2 out3 out4 out5 out6 m).2 p < 2 ^ 32 ∧
        ((vmware_tdx_hypercall prim cmd in1 in3 in4 in5 in6 out1 out2 out3 out4 out5 out6 m).2 p =
            (prim (vmware_tdx_hypercall_record cmd in1 in3 in4 in5 in6) m).1.r14 ↔
          (prim (vmware_tdx_hypercall_record cmd in1 in3 in4 in5 in6) m).1.r14 < 2 ^ 32)) := by
  refine ⟨rfl, ?_, ?_, ?_, ?_, ?_, ?_⟩
  · intro p h h1 h2 h3 h4 h5
    rw [tdx_mem_at]
    simp only [h, h1, h2, h3, h4, h5, if_true, if_false, reduceCtorEq]
    exact ⟨trivial, mod_facts _⟩
  · intro p h h2 h3 h4 h5
    rw [tdx_mem_at]
    simp only [h, h2, h3, h4, h5, if_true, if_false, reduceCtorEq]
    exact ⟨trivial, mod_facts _⟩
  · intro p h h3 h4 h5
    rw [tdx_mem_at]
    simp only [h, h3, h4, h5, if_true, if_false, reduceCtorEq]
    exact ⟨trivial, mod_facts _⟩
  · intro p h h4 h5
    rw [tdx_mem_at]
    simp only [h, h4, h5, if_true, if_false, reduceCtorEq]
    exact ⟨trivial, mod_facts _⟩
  · intro p h h5
    rw [tdx_mem_at]
    simp only [h, h5, if_true, if_false, reduceCtorEq]
    exact ⟨trivial, mod_facts _⟩
  · intro p h 
    rw [tdx_mem_at]
    simp only [h, if_true, if_false, reduceCtorEq]
    exact ⟨trivial, mod_facts _⟩

theorem tdx_slots_are_32_bit_witness :
    (vmware_tdx_hypercall wide_tdcall 68 0 0 0 0 0 (some 100) none none none none none
        boot_machine.mem).1 = 2 ^ 32 + 6 ∧
      (vmware_tdx_hypercall wide_tdcall 68 0 0 0 0 0 (some 100) none none none none none
        boot_machine.mem).2 100 < 2 ^ 32 :=
  ⟨(tdx_slots_are_32_bit wide_tdcall 68 0 0 0 0 0 (some 100) none none none none none
      boot_machine.mem).1,
   ((tdx_slots_are_32_bit wide_tdcall 68 0 0 0 0 0 (some 100) none none none none none
      boot_machine.mem).2.1 100 rfl (by decide) (by decide) (by decide) (by decide)
        (by decide)).2.1⟩

/-! ## C1: the direct low-bandwidth path -/

/-- C1, as amended: with the TDX guest feature off and every output slot of the
shape non-null, each shape runs the selected sequence on the registers
a = 0x564D5868, b = in1, c = cmd, d = in3 (0 for shapes 1, 3 and 4) and
S = in4, D = in5 for shapes 5 and 7 (the other registers keep their values),
returns the a register as the hypervisor left it, leaves in each output slot
(the slots being distinct) the low 32 bits of the register designated for it
(out1 from b, out2 from c, out3 from d, out4 from S, out5 from D), and leaves
every other address as the hypervisor left it. -/
theorem direct_path_marshals (env : Platform) (h : env.tdx_guest = false)
    (cmd in1 in3 in4 in5 : Nat) (s : Machine) :
    vmware_hypercall1 env cmd in1 s =
      some ((VMWARE_HYPERCALL env (loaded s VMWARE_HYPERVISOR_MAGIC in1 cmd 0 s.regs.S s.regs.D)).regs.a,
        (VMWARE_HYPERCALL env (loaded s VMWARE_HYPERVISOR_MAGIC in1 cmd 0 s.regs.S s.regs.D)).mem) ∧
    (∀ p1 p2 : Nat, ∃ m2 : Mem,
      vmware_hypercall3 env cmd in1 (some p1) (some p2) s =
          some ((VMWARE_HYPERCALL env (loaded s VMWARE_HYPERVISOR_MAGIC in1 cmd 0 s.regs.S s.regs.D)).regs.a, m2) ∧
        ([p1, p2].Nodup →
          m2 p1 = (VMWARE_HYPERCALL env (loaded s VMWARE_HYPERVISOR_MAGIC in1 cmd 0 s.regs.S s.regs.D)).regs.b % 2 ^ 32 ∧
          m2 p2 = (VMWARE_HYPERCALL env (loaded s VMWARE_HYPERVISOR_MAGIC in1 cmd 0 s.regs.S s.regs.D)).regs.c % 2 ^ 32) ∧
        (∀ q : Nat, q ≠ p1 → q ≠ p2 →
          m2 q = (VMWARE_HYPERCALL env (loaded s VMWARE_HYPERVISOR_MAGIC in1 cmd 0 s.regs.S s.regs.D)).mem q)) ∧
    (∀ p1 p2 p3 : Nat, ∃ m2 : Mem,
      vmware_hypercall4 env cmd in1 (some p1) (some p2) (some p3) s =
          some ((VMWARE_HYPERCALL env (loaded s VMWARE_HYPERVISOR_MAGIC in1 cmd 0 s.regs.S s.regs.D)).regs.a, m2) ∧
        ([p1, p2, p3].Nodup →
          m2 p1 = (VMWARE_HYPERCALL env (loaded s VMWARE_HYPERVISOR_MAGIC in1 cmd 0 s.regs.S s.regs.D)).regs.b % 2 ^ 32 ∧
          m2 p2 = (VMWARE_HYPERCALL env (loaded s VMWARE_HYPERVISOR_MAGIC in1 cmd 0 s.regs.S s.regs.D)).regs.c % 2 ^ 32 ∧
          m2 p3 = (VMWARE_HYPERCALL env (loaded s VMWARE_HYPERVISOR_MAGIC in1 cmd 0 s.regs.S s.regs.D)).regs.d % 2 ^ 32) ∧
        (∀ q : Nat, q ≠ p1 → q ≠ p2 → q ≠ p3 →
          m2 q = (VMWARE_HYPERCALL env (loaded s VMWARE_HYPERVISOR_MAGIC in1 cmd 0 s.regs.S s.regs.D)).mem q)) ∧
    (∀ p2 : Nat, ∃ m2 : Mem,
      vmware_hypercall5 env cmd in1 in3 in4 in5 (some p2) s =
          some ((VMWARE_HYPERCALL env (loaded s VMWARE_HYPERVISOR_MAGIC in1 cmd in3 in4 in5)).regs.a, m2) ∧
        (m2 p2 = (VMWARE_HYPERCALL env (loaded s VMWARE_HYPERVISOR_MAGIC in1 cmd in3 in4 in5)).regs.c % 2 ^ 32) ∧
        (∀ q : Nat, q ≠ p2 →
          m2 q = (VMWARE_HYPERCALL env (loaded s VMWARE_HYPERVISOR_MAGIC in1 cmd in3 in4 in5)).mem q)) ∧
    (∀ p2 p3 p4 p5 : Nat, ∃ m2 : Mem,
      vmware_hypercall6 env cmd in1 in3 (some p2) (some p3) (some p4) (some p5) s =
          some ((VMWARE_HYPERCALL env (loaded s VMWARE_HYPERVISOR_MAGIC in1 cmd in3 s.regs.S s.regs.D)).regs.a, m2) ∧
        ([p2, p3, p4, p5].Nodup →
          m2 p2 = (VMWARE_HYPERCALL env (loaded s VMWARE_HYPERVISOR_MAGIC in1 cmd in3 s.regs.S s.regs.D)).regs.c % 2 ^ 32 ∧
          m2 p3 = (VMWARE_HYPERCALL env (loaded s VMWARE_HYPERVISOR_MAGIC in1 cmd in3 s.regs.S s.regs.D)).regs.d % 2 ^ 32 ∧
          m2 p4 = (VMWARE_HYPERCALL env (loaded s VMWARE_HYPERVISOR_MAGIC in1 cmd in3 s.regs.S s.regs.D)).regs.S % 2 ^ 32 ∧
          m2 p5 = (VMWARE_HYPERCALL env (loaded s VMWARE_HYPERVISOR_MAGIC in1 cmd in3 s.regs.S s.regs.D)).regs.D % 2 ^ 32) ∧
        (∀ q : Nat, q ≠ p2 → q ≠ p3 → q ≠ p4 → q ≠ p5 →
          m2 q = (VMWARE_HYPERCALL env (loaded s VMWARE_HYPERVISOR_MAGIC in1 cmd in3 s.regs.S s.regs.D)).mem q)) ∧
    (∀ p1 p2 p3 : Nat, ∃ m2 : Mem,
      vmware_hypercall7 env cmd in1 in3 in4 in5 (some p1) (some p2) (some p3) s =
          some ((VMWARE_HYPERCALL env (loaded s VMWARE_HYPERVISOR_MAGIC in1 cmd in3 in4 in5)).regs.a, m2) ∧
        ([p1, p2, p3].Nodup →
          m2 p1 = (VMWARE_HYPERCALL env (loaded s VMWARE_HYPERVISOR_MAGIC in1 cmd in3 in4 in5)).regs.b % 2 ^ 32 ∧
          m2 p2 = (VMWARE_HYPERCALL env (loaded s VMWARE_HYPERVISOR_MAGIC in1 cmd in3 in4 in5)).regs.c % 2 ^ 32 ∧
          m2 p3 = (VMWARE_HYPERCALL env (loaded s VMWARE_HYPERVISOR_MAGIC in1 cmd in3 in4 in5)).regs.d % 2 ^ 32) ∧
        (∀ q : Nat, q ≠ p1 → q ≠ p2 → q ≠ p3 →
          m2 q = (VMWARE_HYPERCALL env (loaded s VMWARE_HYPERVISOR_MAGIC in1 cmd in3 in4 in5)).mem q)) := by
  refine ⟨?_, ?_, ?_, ?_, ?_, ?_⟩
  · simp [vmware_hypercall1, h, loaded]
  · intro p1 p2
    refine ⟨store32 (store32 ((VMWARE_HYPERCALL env (loaded s VMWARE_HYPERVISOR_MAGIC in1 cmd 0 s.regs.S s.regs.D)).mem) p1 (VMWARE_HYPERCALL env (loaded s VMWARE_HYPERVISOR_MAGIC in1 cmd 0 s.regs.S s.regs.D)).regs.b) p2 (VMWARE_HYPERCALL env (loaded s VMWARE_HYPERVISOR_MAGIC in1 cmd 0 s.regs.S s.regs.D)).regs.c, ?_, ?_, ?_⟩
    · simp [vmware_hypercall3, h, loaded, deref_store32]
    · intro hn
      simp only [List.nodup_cons, List.mem_cons, List.mem_singleton, List.not_mem_nil, not_or, not_false_eq_true, List.nodup_nil, and_true] at hn
      simp only [store32]
      simp_all
    · intro q hq0 hq1
      simp [store32, *]
  · intro p1 p2 p3
    refine ⟨store32 (store32 (store32 ((VMWARE_HYPERCALL env (loaded s VMWARE_HYPERVISOR_MAGIC in1 cmd 0 s.regs.S s.regs.D)).mem) p1 (VMWARE_HYPERCALL env (loaded s VMWARE_HYPERVISOR_MAGIC in1 cmd 0 s.regs.S s.regs.D)).regs.b) p2 (VMWARE_HYPERCALL env (loaded s VMWARE_HYPERVISOR_MAGIC in1 cmd 0 s.regs.S s.regs.D)).regs.c) p3 (VMWARE_HYPERCALL env (loaded s VMWARE_HYPERVISOR_MAGIC in1 cmd 0 s.regs.S s.regs.D)).regs.d, ?_, ?_, ?_⟩
    · simp [vmware_hypercall4, h, loaded, deref_store32]
    · intro hn
      simp only [List.nodup_cons, List.mem_cons, List.mem_singleton, List.not_mem_nil, not_or, not_false_eq_true, List.nodup_nil, and_true] at hn
      simp only [store32]
      simp_all
    · intro q hq0 hq1 hq2
      simp [store32, *]
  · intro p2
    refine ⟨store32 ((VMWARE_HYPERCALL env (loaded s VMWARE_HYPERVISOR_MAGIC in1 cmd in3 in4 in5)).mem) p2 (VMWARE_HYPERCALL env (loaded s VMWARE_HYPERVISOR_MAGIC in1 cmd in3 in4 in5)).regs.c, ?_, ?_, ?_⟩
    · simp [vmware_hypercall5, h, loaded, deref_store32]
    · simp only [store32]
      simp_all
    · intro q hq0
      simp [store32, *]
  · intro p2 p3 p4 p5
    refine ⟨store32 (store32 (store32 (store32 ((VMWARE_HYPERCALL env (loaded s VMWARE_HYPERVISOR_MAGIC in1 cmd in3 s.regs.S s.regs.D)).mem) p2 (VMWARE_HYPERCALL env (loaded s VMWARE_HYPERVISOR_MAGIC in1 cmd in3 s.regs.S s.regs.D)).regs.c) p3 (VMWARE_HYPERCALL env (loaded s VMWARE_HYPERVISOR_MAGIC in1 cmd in3 s.regs.S s.regs.D)).regs.d) p4 (VMWARE_HYPERCALL env (loaded s VMWARE_HYPERVISOR_MAGIC in1 cmd in3 s.regs.S s.regs.D)).regs.S) p5 (VMWARE_HYPERCALL env (loaded s VMWARE_HYPERVISOR_MAGIC in1 cmd in3 s.regs.S s.regs.D)).regs.D, ?_, ?_, ?_⟩
    · simp [vmware_hypercall6, h, loaded, deref_store32]
    · intro hn
      simp only [List.nodup_cons, List.mem_cons, List.mem_singleton, List.not_mem_nil, not_or, not_false_eq_true, List.nodup_nil, and_true] at hn
      simp only [store32]
      simp_all
    · intro q hq0 hq1 hq2 hq3
      simp [store32, *]
  · intro p1 p2 p3
    refine ⟨store32 (store32 (store32 ((VMWARE_HYPERCALL env (loaded s VMWARE_HYPERVISOR_MAGIC in1 cmd in3 in4 in5)).mem) p1 (VMWARE_HYPERCALL env (loaded s VMWARE_HYPERVISOR_MAGIC in1 cmd in3 in4 in5)).regs.b) p2 (VMWARE_HYPERCALL env (loaded s VMWARE_HYPERVISOR_MAGIC in1 cmd in3 in4 in5)).regs.c) p3 (VMWARE_HYPERCALL env (loaded s VMWARE_HYPERVISOR_MAGIC in1 cmd in3 in4 in5)).regs.d, ?_, ?_, ?_⟩
    · simp [vmware_hypercall7, h, loaded, deref_store32]
    · intro hn
      simp only [List.nodup_cons, List.mem_cons, List.mem_singleton, List.not_mem_nil, not_or, not_false_eq_true, List.nodup_nil, and_true] at hn
      simp only [store32]
      simp_all
    · intro q hq0 hq1 hq2
      simp [store32, *]

/-- C1 as stated fails twice. With every slot non-null, the hypervisor leaves
2^32 + 5 in the b register and the slot out1 of vmware_hypercall3 holds 5. With
out2 null (and out1 not), the call does not return: it stores through NULL. -/
theorem direct_slot_is_not_the_register :
    (VMWARE_HYPERCALL (mock_platform false 0)
        (loaded boot_machine VMWARE_HYPERVISOR_MAGIC 0 10 0 0 0)).regs.b = 4294967301 ∧
    (vmware_hypercall3 (mock_platform false 0) 10 0 (some 100) (some 104) boot_machine).map
        (fun r => r.2 100) = some 5 ∧
    vmware_hypercall3 (mock_platform false 0) 10 0 (some 100) none boot_machine = none :=
  ⟨by decide, by decide, rfl⟩

theorem direct_path_marshals_witness :
    ∃ m2 : Mem,
      vmware_hypercall5 (mock_platform false 1) 91 7 0x20000 3 4 (some 100) boot_machine =
          some ((VMWARE_HYPERCALL (mock_platform false 1)
            (loaded boot_machine VMWARE_HYPERVISOR_MAGIC 7 91 0x20000 3 4)).regs.a, m2) ∧
        (m2 100 = (VMWARE_HYPERCALL (mock_platform false 1)
          (loaded boot_machine VMWARE_HYPERVISOR_MAGIC 7 91 0x20000 3 4)).regs.c % 2 ^ 32) ∧
        (∀ q : Nat, q ≠ 100 →
          m2 q = (VMWARE_HYPERCALL (mock_platform false 1)
            (loaded boot_machine VMWARE_HYPERVISOR_MAGIC 7 91 0x20000 3 4)).mem q) :=
  (direct_path_marshals (mock_platform false 1) rfl 91 7 0x20000 3 4 boot_machine).2.2.2.1 100

/-! ## C2: null output slots -/

/-- C2, as amended. With the TDX guest feature on, each shape with output slots
completes for every choice of null slots and returns the primary result; an
address that no non-null slot points to keeps its content, and each non-null
slot is written with its value (of two slots with one address the later
decides). With the feature off the shape stores through each of its slots
without a test: the call completes exactly when all its slots are non-null, and
then it returns the primary result and writes to no address but its slots. -/
theorem null_slots (env : Platform) (cmd in1 in3 in4 in5 : Nat)
    (out1 out2 out3 out4 out5 : Ptr) (s : Machine) :
    (env.tdx_guest = true → ∃ m2 : Mem,
      vmware_hypercall3 env cmd in1 out1 out2 s =
          some ((env.vmware_tdx_hypercall_args
            (vmware_tdx_hypercall_record cmd in1 0 0 0 0) s.mem).1.r12, m2) ∧
        (∀ q : Nat, out1 ≠ some q → out2 ≠ some q → 
          m2 q = (env.vmware_tdx_hypercall_args
            (vmware_tdx_hypercall_record cmd in1 0 0 0 0) s.mem).2 q) ∧
        (∀ p : Nat, out1 = some p → out2 ≠ some p → 
          m2 p = (env.vmware_tdx_hypercall_args
            (vmware_tdx_hypercall_record cmd in1 0 0 0 0) s.mem).1.rbx % 2 ^ 32) ∧
        (∀ p : Nat, out2 = some p → 
          m2 p = (env.vmware_tdx_hypercall_args
            (vmware_tdx_hypercall_record cmd in1 0 0 0 0) s.mem).1.r13 % 2 ^ 32)) ∧
    (env.tdx_guest = false →
      ((vmware_hypercall3 env cmd in1 out1 out2 s).isSome = true ↔
        out1 ≠ none ∧ out2 ≠ none) ∧
      (∀ r : Nat × Mem, vmware_hypercall3 env cmd in1 out1 out2 s = some r →
        r.1 = (VMWARE_HYPERCALL env
            (loaded s VMWARE_HYPERVISOR_MAGIC in1 cmd 0 s.regs.S s.regs.D)).regs.a ∧
        (∀ q : Nat, out1 ≠ some q → out2 ≠ some q → 
          r.2 q = (VMWARE_HYPERCALL env
            (loaded s VMWARE_HYPERVISOR_MAGIC in1 cmd 0 s.regs.S s.regs.D)).mem q))) ∧
    (env.tdx_guest = true → ∃ m2 : Mem,
      vmware_hypercall4 env cmd in1 out1 out2 out3 s =
          some ((env.vmware_tdx_hypercall_args
            (vmware_tdx_hypercall_record cmd in1 0 0 0 0) s.mem).1.r12, m2) ∧
        (∀ q : Nat, out1 ≠ some q → out2 ≠ some q → out3 ≠ some q → 
          m2 q = (env.vmware_tdx_hypercall_args
            (vmware_tdx_hypercall_record cmd in1 0 0 0 0) s.mem).2 q) ∧
        (∀ p : Nat, out1 = some p → out2 ≠ some p → out3 ≠ some p → 
          m2 p = (env.vmware_tdx_hypercall_args
            (vmware_tdx_hypercall_record cmd in1 0 0 0 0) s.mem).1.rbx % 2 ^ 32) ∧
        (∀ p : Nat, out2 = some p → out3 ≠ some p → 
          m2 p = (env.vmware_tdx_hypercall_args
            (vmware_tdx_hypercall_record cmd in1 0 0 0 0) s.mem).1.r13 % 2 ^ 32) ∧
        (∀ p : Nat, out3 = some p → 
          m2 p = (env.vmware_tdx_hypercall_args
            (vmware_tdx_hypercall_record cmd in1 0 0 0 0) s.mem).1.rdx % 2 ^ 32)) ∧
    (env.tdx_guest = false →
      ((vmware_hypercall4 env cmd in1 out1 out2 out3 s).isSome = true ↔
        out1 ≠ none ∧ out2 ≠ none ∧ out3 ≠ none) ∧
      (∀ r : Nat × Mem, vmware_hypercall4 env cmd in1 out1 out2 out3 s = some r →
        r.1 = (VMWARE_HYPERCALL env
            (loaded s VMWARE_HYPERVISOR_MAGIC in1 cmd 0 s.regs.S s.regs.D)).regs.a ∧
        (∀ q : Nat, out1 ≠ some q → out2 ≠ some q → out3 ≠ some q → 
          r.2 q = (VMWARE_HYPERCALL env
            (loaded s VMWARE_HYPERVISOR_MAGIC in1 cmd 0 s.regs.S s.regs.D)).mem q))) ∧
    (env.tdx_guest = true → ∃ m2 : Mem,
      vmware_hypercall5 env cmd in1 in3 in4 in5 out2 s =
          some ((env.vmware_tdx_hypercall_args
            (vmware_tdx_hypercall_record cmd in1 in3 in4 in5 0) s.mem).1.r12, m2) ∧
        (∀ q : Nat, out2 ≠ some q → 
          m2 q = (env.vmware_tdx_hypercall_args
            (vmware_tdx_hypercall_record cmd in1 in3 in4 in5 0) s.mem).2 q) ∧
        (∀ p : Nat, out2 = some p → 
          m2 p = (env.vmware_tdx_hypercall_args
            (vmware_tdx_hypercall_record cmd in1 in3 in4 in5 0) s.mem).1.r13 % 2 ^ 32)) ∧
    (env.tdx_guest = false →
      ((vmware_hypercall5 env cmd in1 in3 in4 in5 out2 s).isSome = true ↔
        out2 ≠ none) ∧
      (∀ r : Nat × Mem, vmware_hypercall5 env cmd in1 in3 in4 in5 out2 s = some r →
        r.1 = (VMWARE_HYPERCALL env
            (loaded s VMWARE_HYPERVISOR_MAGIC in1 cmd in3 in4 in5)).regs.a ∧
        (∀ q : Nat, out2 ≠ some q → 
          r.2 q = (VMWARE_HYPERCALL env
            (loaded s VMWARE_HYPERVISOR_MAGIC in1 cmd in3 in4 in5)).mem q))) ∧
    (env.tdx_guest = true → ∃ m2 : Mem,
      vmware_hypercall6 env cmd in1 in3 out2 out3 out4 out5 s =
          some ((env.vmware_tdx_hypercall_args
            (vmware_tdx_hypercall_record cmd in1 in3 0 0 0) s.mem).1.r12, m2) ∧
        (∀ q : Nat, out2 ≠ some q → out3 ≠ some q → out4 ≠ some q → out5 ≠ some q → 
          m2 q = (env.vmware_tdx_hypercall_args
            (vmware_tdx_hypercall_record cmd in1 in3 0 0 0) s.mem).2 q) ∧
        (∀ p : Nat, out2 = some p → out3 ≠ some p → out4 ≠ some p → out5 ≠ some p → 
          m2 p = (env.vmware_tdx_hypercall_args
            (vmware_tdx_hypercall_record cmd in1 in3 0 0 0) s.mem).1.r13 % 2 ^ 32) ∧
        (∀ p : Nat, out3 = some p → out4 ≠ some p → out5 ≠ some p → 
          m2 p = (env.vmware_tdx_hypercall_args
            (vmware_tdx_hypercall_record cmd in1 in3 0 0 0) s.mem).1.rdx % 2 ^ 32) ∧
        (∀ p : Nat, out4 = some p → out5 ≠ some p → 
          m2 p = (env.vmware_tdx_hypercall_args
            (vmware_tdx_hypercall_record cmd in1 in3 0 0 0) s.mem).1.rsi % 2 ^ 32) ∧
        (∀ p : Nat, out5 = some p → 
          m2 p = (env.vmware_tdx_hypercall_args
            (vmware_tdx_hypercall_record cmd in1 in3 0 0 0) s.mem).1.rdi % 2 ^ 32)) ∧
    (env.tdx_guest = false →
      ((vmware_hypercall6 env cmd in1 in3 out2 out3 out4 out5 s).isSome = true ↔
        out2 ≠ none ∧ out3 ≠ none ∧ out4 ≠ none ∧ out5 ≠ none) ∧
      (∀ r : Nat × Mem, vmware_hypercall6 env cmd in1 in3 out2 out3 out4 out5 s = some r →
        r.1 = (VMWARE_HYPERCALL env
            (loaded s VMWARE_HYPERVISOR_MAGIC in1 cmd in3 s.regs.S s.regs.D)).regs.a ∧
        (∀ q : Nat, out2 ≠ some q → out3 ≠ some q → out4 ≠ some q → out5 ≠ some q → 
          r.2 q = (VMWARE_HYPERCALL env
            (loaded s VMWARE_HYPERVISOR_MAGIC in1 cmd in3 s.regs.S s.regs.D)).mem q))) ∧
    (env.tdx_guest = true → ∃ m2 : Mem,
      vmware_hypercall7 env cmd in1 in3 in4 in5 out1 out2 out3 s =
          some ((env.vmware_tdx_hypercall_args
            (vmware_tdx_hypercall_record cmd in1 in3 in4 in5 0) s.mem).1.r12, m2) ∧
        (∀ q : Nat, out1 ≠ some q → out2 ≠ some q → out3 ≠ some q → 
          m2 q = (env.vmware_tdx_hypercall_args
            (vmware_tdx_hypercall_record cmd in1 in3 in4 in5 0) s.mem).2 q) ∧
        (∀ p : Nat, out1 = some p → out2 ≠ some p → out3 ≠ some p → 
          m2 p = (env.vmware_tdx_hypercall_args
            (vmware_tdx_hypercall_record cmd in1 in3 in4 in5 0) s.mem).1.rbx % 2 ^ 32) ∧
        (∀ p : Nat, out2 = some p → out3 ≠ some p → 
          m2 p = (env.vmware_tdx_hypercall_args
            (vmware_tdx_hypercall_record cmd in1 in3 in4 in5 0) s.mem).1.r13 % 2 ^ 32) ∧
        (∀ p : Nat, out3 = some p → 
          m2 p = (env.vmware_tdx_hypercall_args
            (vmware_tdx_hypercall_record cmd in1 in3 in4 in5 0) s.mem).1.rdx % 2 ^ 32)) ∧
    (env.tdx_guest = false →
      ((vmware_hypercall7 env cmd in1 in3 in4 in5 out1 out2 out3 s).isSome = true ↔
        out1 ≠ none ∧ out2 ≠ none ∧ out3 ≠ none) ∧
      (∀ r : Nat × Mem, vmware_hypercall7 env cmd in1 in3 in4 in5 out1 out2 out3 s = some r →
        r.1 = (VMWARE_HYPERCALL env
            (loaded s VMWARE_HYPERVISOR_MAGIC in1 cmd in3 in4 in5)).regs.a ∧
        (∀ q : Nat, out1 ≠ some q → out2 ≠ some q → out3 ≠ some q → 
          r.2 q = (VMWARE_HYPERCALL env
            (loaded s VMWARE_HYPERVISOR_MAGIC in1 cmd in3 in4 in5)).mem q))) := by
  refine ⟨?_, ?_, ?_, ?_, ?_, ?_, ?_, ?_, ?_, ?_⟩
  · intro ht
    refine ⟨(vmware_tdx_hypercall env.vmware_tdx_hypercall_args cmd in1 0 0 0 0
      out1 out2 none none none none s.mem).2, ?_, ?_, ?_, ?_⟩
    · simp only [vmware_hypercall3, ht, if_true]
      rfl
    · intro q h0 h1
      rw [tdx_mem_at]
      simp [h0, h1]
    · intro p h h1
      rw [tdx_mem_at]
      simp [h, h1]
    · intro p h 
      rw [tdx_mem_at]
      simp [h]
  · intro hf
    refine ⟨?_, ?_⟩
    · cases out1 <;> cases out2 <;> simp [vmware_hypercall3, hf, deref_store32]
    · intro r hr
      cases out1 <;> cases out2 <;>
        simp [vmware_hypercall3, hf, deref_store32] at hr
      subst hr
      refine ⟨rfl, ?_⟩
      intro q h0 h1
      simp only [ne_eq, Option.some.injEq] at h0 h1
      have e : ∀ a b : Nat, ¬ a = b → ¬ b = a := fun a b hab hba => hab hba.symm
      simp [store32, loaded, e _ _ h0, e _ _ h1]
  · intro ht
    refine ⟨(vmware_tdx_hypercall env.vmware_tdx_hypercall_args cmd in1 0 0 0 0
      out1 out2 out3 none none none s.mem).2, ?_, ?_, ?_, ?_, ?_⟩
    · simp only [vmware_hypercall4, ht, if_true]
      rfl
    · intro q h0 h1 h2
      rw [tdx_mem_at]
      simp [h0, h1, h2]
    · intro p h h1 h2
      rw [tdx_mem_at]
      simp [h, h1, h2]
    · intro p h h2
      rw [tdx_mem_at]
      simp [h, h2]
    · intro p h 
      rw [tdx_mem_at]
      simp [h]
  · intro hf
    refine ⟨?_, ?_⟩
    · cases out1 <;> cases out2 <;> cases out3 <;> simp [vmware_hypercall4, hf, deref_store32]
    · intro r hr
      cases out1 <;> cases out2 <;> cases out3 <;>
        simp [vmware_hypercall4, hf, deref_store32] at hr
      subst hr
      refine ⟨rfl, ?_⟩
      intro q h0 h1 h2
      simp only [ne_eq, Option.some.injEq] at h0 h1 h2
      have e : ∀ a b : Nat, ¬ a = b → ¬ b = a := fun a b hab hba => hab hba.symm
      simp [store32, loaded, e _ _ h0, e _ _ h1, e _ _ h2]
  · intro ht
    refine ⟨(vmware_tdx_hypercall env.vmware_tdx_hypercall_args cmd in1 in3 in4 in5 0
      none out2 none none none none s.mem).2, ?_, ?_, ?_⟩
    · simp only [vmware_hypercall5, ht, if_true]
      rfl
    · intro q h0
      rw [tdx_mem_at]
      simp [h0]
    · intro p h 
      rw [tdx_mem_at]
      simp [h]
  · intro hf
    refine ⟨?_, ?_⟩
    · cases out2 <;> simp [vmware_hypercall5, hf, deref_store32]
    · intro r hr
      cases out2 <;>
        simp [vmware_hypercall5, hf, deref_store32] at hr
      subst hr
      refine ⟨rfl, ?_⟩
      intro q h0
      simp only [ne_eq, Option.some.injEq] at h0
      have e : ∀ a b : Nat, ¬ a = b → ¬ b = a := fun a b hab hba => hab hba.symm
      simp [store32, loaded, e _ _ h0]
  · intro ht
    refine ⟨(vmware_tdx_hypercall env.vmware_tdx_hypercall_args cmd in1 in3 0 0 0
      none out2 out3 out4 out5 none s.mem).2, ?_, ?_, ?_, ?_, ?_, ?_⟩
    · simp only [vmware_hypercall6, ht, if_true]
      rfl
    · intro q h0 h1 h2 h3
      rw [tdx_mem_at]
      simp [h0, h1, h2, h3]
    · intro p h h1 h2 h3
      rw [tdx_mem_at]
      simp [h, h1, h2, h3]
    · intro p h h2 h3
      rw [tdx_mem_at]
      simp [h, h2, h3]
    · intro p h h3
      rw [tdx_mem_at]
      simp [h, h3]
    · intro p h 
      rw [tdx_mem_at]
      simp [h]
  · intro hf
    refine ⟨?_, ?_⟩
    · cases out2 <;> cases out3 <;> cases out4 <;> cases out5 <;> simp [vmware_hypercall6, hf, deref_store32]
    · intro r hr
      cases out2 <;> cases out3 <;> cases out4 <;> cases out5 <;>
        simp [vmware_hypercall6, hf, deref_store32] at hr
      subst hr
      refine ⟨rfl, ?_⟩
      intro q h0 h1 h2 h3
      simp only [ne_eq, Option.some.injEq] at h0 h1 h2 h3
      have e : ∀ a b : Nat, ¬ a = b → ¬ b = a := fun a b hab hba => hab hba.symm
      simp [store32, loaded, e _ _ h0, e _ _ h1, e _ _ h2, e _ _ h3]
  · intro ht
    refine ⟨(vmware_tdx_hypercall env.vmware_tdx_hypercall_args cmd in1 in3 in4 in5 0
      out1 out2 out3 none none none s.mem).2, ?_, ?_, ?_, ?_, ?_⟩
    · simp only [vmware_hypercall7, ht, if_true]
      rfl
    · intro q h0 h1 h2
      rw [tdx_mem_at]
      simp [h0, h1, h2]
    · intro p h h1 h2
      rw [tdx_mem_at]
      simp [h, h1, h2]
    · intro p h h2
      rw [tdx_mem_at]
      simp [h, h2]
    · intro p h 
      rw [tdx_mem_at]
      simp [h]
  · intro hf
    refine ⟨?_, ?_⟩
    · cases out1 <;> cases out2 <;> cases out3 <;> simp [vmware_hypercall7, hf, deref_store32]
    · intro r hr
      cases out1 <;> cases out2 <;> cases out3 <;>
        simp [vmware_hypercall7, hf, deref_store32] at hr
      subst hr
      refine ⟨rfl, ?_⟩
      intro q h0 h1 h2
      simp only [ne_eq, Option.some.injEq] at h0 h1 h2
      have e : ∀ a b : Nat, ¬ a = b → ¬ b = a := fun a b hab hba => hab hba.symm
      simp [store32, loaded, e _ _ h0, e _ _ h1, e _ _ h2]

/-- C2 as stated fails on the non-confidential path: vmware_hypercall3 with
out1 null and vmware_hypercall6 with out5 null store through NULL and do not
complete, while the same calls complete with the TDX guest feature on. -/
theorem direct_path_dereferences_null :
    vmware_hypercall3 (mock_platform false 2) 45 0 none (some 104) boot_machine = none ∧
    vmware_hypercall6 (mock_platform false 2) 45 0 0 (some 100) (some 104) (some 108) none
      boot_machine = none ∧
    (vmware_hypercall3 (mock_platform true 2) 45 0 none (some 104) boot_machine).isSome = true :=
  ⟨rfl, rfl, rfl⟩

theorem null_slots_witness :
    (vmware_hypercall4 (mock_platform false 2) 45 0 (some 100) (some 104) (some 108)
        boot_machine).isSome = true ∧
      ∃ m2 : Mem,
        vmware_hypercall5 (mock_platform true 2) 45 0 0 0 0 (some 104) boot_machine =
            some (((mock_platform true 2).vmware_tdx_hypercall_args
              (vmware_tdx_hypercall_record 45 0 0 0 0 0) boot_machine.mem).1.r12, m2) ∧
          (∀ q : Nat, some 104 ≠ some q →
            m2 q = ((mock_platform true 2).vmware_tdx_hypercall_args
              (vmware_tdx_hypercall_record 45 0 0 0 0 0) boot_machine.mem).2 q) ∧
          (∀ p : Nat, some 104 = some p →
            m2 p = ((mock_platform true 2).vmware_tdx_hypercall_args
              (vmware_tdx_hypercall_record 45 0 0 0 0 0) boot_machine.mem).1.r13 % 2 ^ 32) :=
  ⟨((null_slots (mock_platform false 2) 45 0 0 0 0 (some 100) (some 104) (some 108) none none
      boot_machine).2.2.2.1 rfl).1.2 (by decide),
   (null_slots (mock_platform true 2) 45 0 0 0 0 none (some 104) none none none
      boot_machine).2.2.2.2.1 rfl⟩

/-! ## C7: the high-bandwidth calls do not depend on the mode -/

/-- C7, as amended: the high-bandwidth calls consult neither the mode byte nor
the TDX guest feature: two platforms with the same hypervisor behind the string
instruction give the same result. The string instruction (rep outsb for hb_out,
rep insb for hb_in) runs on a = 0x564D5868, b = cmd, c = in2,
d = in3 | 0x5659, S = in4, D = in5 and the frame register = in6. The call
returns the a register and leaves the low 32 bits of the b register in out1,
and every other address as the hypervisor left it. -/
theorem hb_calls_use_the_port (env : Platform) (cmd in2 in3 in4 in5 in6 p : Nat)
    (s : Machine) :
    (hb_entry cmd in2 in3 in4 in5 in6 s).regs.a = 0x564D5868 ∧
    (hb_entry cmd in2 in3 in4 in5 in6 s).regs.b = cmd ∧
    (hb_entry cmd in2 in3 in4 in5 in6 s).regs.c = in2 ∧
    (hb_entry cmd in2 in3 in4 in5 in6 s).regs.d = in3 ||| 0x5659 ∧
    (hb_entry cmd in2 in3 in4 in5 in6 s).regs.S = in4 ∧
    (hb_entry cmd in2 in3 in4 in5 in6 s).regs.D = in5 ∧
    (hb_entry cmd in2 in3 in4 in5 in6 s).regs.bp = in6 ∧
    VMWARE_HYPERVISOR_PORT_HB = 0x5659 ∧
    VMWARE_HYPERVISOR_PORT_HB = VMWARE_HYPERVISOR_PORT ||| BIT 0 ∧
    (∃ fin : Machine,
      vmware_hypercall_hb_out env cmd in2 in3 in4 in5 in6 (some p) s =
          some ((env.hypervisor_hb StringInsn.rep_outsb
          (hb_entry cmd in2 in3 in4 in5 in6 s)).regs.a, fin) ∧
        fin.mem p = (env.hypervisor_hb StringInsn.rep_outsb
          (hb_entry cmd in2 in3 in4 in5 in6 s)).regs.b % 2 ^ 32 ∧
        (∀ q : Nat, q ≠ p → fin.mem q = (env.hypervisor_hb StringInsn.rep_outsb
          (hb_entry cmd in2 in3 in4 in5 in6 s)).mem q)) ∧
    (∀ (env2 : Platform) (out1 : Ptr), env2.hypervisor_hb = env.hypervisor_hb →
      vmware_hypercall_hb_out env2 cmd in2 in3 in4 in5 in6 out1 s =
        vmware_hypercall_hb_out env cmd in2 in3 in4 in5 in6 out1 s) ∧
    (∃ fin : Machine,
      vmware_hypercall_hb_in env cmd in2 in3 in4 in5 in6 (some p) s =
          some ((env.hypervisor_hb StringInsn.rep_insb
          (hb_entry cmd in2 in3 in4 in5 in6 s)).regs.a, fin) ∧
        fin.mem p = (env.hypervisor_hb StringInsn.rep_insb
          (hb_entry cmd in2 in3 in4 in5 in6 s)).regs.b % 2 ^ 32 ∧
        (∀ q : Nat, q ≠ p → fin.mem q = (env.hypervisor_hb StringInsn.rep_insb
          (hb_entry cmd in2 in3 in4 in5 in6 s)).mem q)) ∧
    (∀ (env2 : Platform) (out1 : Ptr), env2.hypervisor_hb = env.hypervisor_hb →
      vmware_hypercall_hb_in env2 cmd in2 in3 in4 in5 in6 out1 s =
        vmware_hypercall_hb_in env cmd in2 in3 in4 in5 in6 out1 s) := by
  have e : VMWARE_HYPERVISOR_PORT_HB = 0x5659 := by decide
  refine ⟨rfl, rfl, rfl, ?_, rfl, rfl, rfl, e, by decide, ?_, ?_, ?_, ?_⟩
  · simp only [hb_entry, hb_prologue, e]
  · refine ⟨_, rfl, ?_, ?_⟩
    · simp [store32, hb_epilogue]
    · intro q hq
      simp [store32, hb_epilogue, hq]
  · intro env2 out1 h2
    simp only [vmware_hypercall_hb_out, h2]
  · refine ⟨_, rfl, ?_, ?_⟩
    · simp [store32, hb_epilogue]
    · intro q hq
      simp [store32, hb_epilogue, hq]
  · intro env2 out1 h2
    simp only [vmware_hypercall_hb_in, h2]

/-- C7 as stated fails in its last clause: the hypervisor leaves 2^32 + 5 in
the b register and the slot out1 holds 5 after vmware_hypercall_hb_out. -/
theorem hb_slot_is_not_the_register :
    ((mock_platform false 1).hypervisor_hb StringInsn.rep_outsb
        (hb_entry 30 16 0 1 2 3 boot_machine)).regs.b = 4294967301 ∧
    (vmware_hypercall_hb_out (mock_platform false 1) 30 16 0 1 2 3 (some 100) boot_machine).map
        (fun r => r.2.mem 100) = some 5 :=
  ⟨by decide, by decide⟩

/-! ## C8: the frame register is restored -/

/-- C8: when the stack pointer is a 64-bit value and the hypervisor, during the
string instruction, leaves the stack pointer and the saved stack word as they
are, the frame register holds in6 while the string instruction runs, and after
the asm statement (whatever out1 is) and after the completed call the frame
register and the stack pointer hold the values they held before the call. -/
theorem hb_restores_frame_register (env : Platform) (cmd in2 in3 in4 in5 in6 p : Nat)
    (s : Machine) (hsp : s.regs.sp < 2 ^ 64) :
    (hb_entry cmd in2 in3 in4 in5 in6 s).regs.bp = in6 ∧
    (hb_entry cmd in2 in3 in4 in5 in6 s).mem
        (hb_entry cmd in2 in3 in4 in5 in6 s).regs.sp = s.regs.bp ∧
    ((env.hypervisor_hb StringInsn.rep_outsb
          (hb_entry cmd in2 in3 in4 in5 in6 s)).regs.sp =
          (hb_entry cmd in2 in3 in4 in5 in6 s).regs.sp →
      (env.hypervisor_hb StringInsn.rep_outsb
          (hb_entry cmd in2 in3 in4 in5 in6 s)).mem
          (hb_entry cmd in2 in3 in4 in5 in6 s).regs.sp =
        (hb_entry cmd in2 in3 in4 in5 in6 s).mem
          (hb_entry cmd in2 in3 in4 in5 in6 s).regs.sp →
      (hb_epilogue (env.hypervisor_hb StringInsn.rep_outsb
          (hb_entry cmd in2 in3 in4 in5 in6 s))).regs.bp = s.regs.bp ∧
      (hb_epilogue (env.hypervisor_hb StringInsn.rep_outsb
          (hb_entry cmd in2 in3 in4 in5 in6 s))).regs.sp = s.regs.sp ∧
      ∃ (ret : Nat) (fin : Machine),
        vmware_hypercall_hb_out env cmd in2 in3 in4 in5 in6 (some p) s = some (ret, fin) ∧
        fin.regs.bp = s.regs.bp ∧ fin.regs.sp = s.regs.sp) ∧
    ((env.hypervisor_hb StringInsn.rep_insb
          (hb_entry cmd in2 in3 in4 in5 in6 s)).regs.sp =
          (hb_entry cmd in2 in3 in4 in5 in6 s).regs.sp →
      (env.hypervisor_hb StringInsn.rep_insb
          (hb_entry cmd in2 in3 in4 in5 in6 s)).mem
          (hb_entry cmd in2 in3 in4 in5 in6 s).regs.sp =
        (hb_entry cmd in2 in3 in4 in5 in6 s).mem
          (hb_entry cmd in2 in3 in4 in5 in6 s).regs.sp →
      (hb_epilogue (env.hypervisor_hb StringInsn.rep_insb
          (hb_entry cmd in2 in3 in4 in5 in6 s))).regs.bp = s.regs.bp ∧
      (hb_epilogue (env.hypervisor_hb StringInsn.rep_insb
          (hb_entry cmd in2 in3 in4 in5 in6 s))).regs.sp = s.regs.sp ∧
      ∃ (ret : Nat) (fin : Machine),
        vmware_hypercall_hb_in env cmd in2 in3 in4 in5 in6 (some p) s = some (ret, fin) ∧
        fin.regs.bp = s.regs.bp ∧ fin.regs.sp = s.regs.sp) := by
  have hsp2 : ((s.regs.sp + 2 ^ 64 - 8) % 2 ^ 64 + 8) % 2 ^ 64 = s.regs.sp := by omega
  have hE : (hb_entry cmd in2 in3 in4 in5 in6 s).regs.sp = (s.regs.sp + 2 ^ 64 - 8) % 2 ^ 64 := rfl
  have hW : (hb_entry cmd in2 in3 in4 in5 in6 s).mem
      (hb_entry cmd in2 in3 in4 in5 in6 s).regs.sp = s.regs.bp := by
    simp [hb_entry, hb_prologue]
  refine ⟨rfl, hW, ?_, ?_⟩
  · intro h1 h2
    have hbp : (hb_epilogue (env.hypervisor_hb StringInsn.rep_outsb
        (hb_entry cmd in2 in3 in4 in5 in6 s))).regs.bp = s.regs.bp := by
      simp only [hb_epilogue]
      rw [h1, h2, hW]
    have hs : (hb_epilogue (env.hypervisor_hb StringInsn.rep_outsb
        (hb_entry cmd in2 in3 in4 in5 in6 s))).regs.sp = s.regs.sp := by
      simp only [hb_epilogue]
      rw [h1, hE, hsp2]
    exact ⟨hbp, hs, _, _, rfl, hbp, hs⟩
  · intro h1 h2
    have hbp : (hb_epilogue (env.hypervisor_hb StringInsn.rep_insb
        (hb_entry cmd in2 in3 in4 in5 in6 s))).regs.bp = s.regs.bp := by
      simp only [hb_epilogue]
      rw [h1, h2, hW]
    have hs : (hb_epilogue (env.hypervisor_hb StringInsn.rep_insb
        (hb_entry cmd in2 in3 in4 in5 in6 s))).regs.sp = s.regs.sp := by
      simp only [hb_epilogue]
      rw [h1, hE, hsp2]
    exact ⟨hbp, hs, _, _, rfl, hbp, hs⟩

theorem hb_restores_frame_register_witness :
    ∃ (ret : Nat) (fin : Machine),
      vmware_hypercall_hb_in (mock_platform false 1) 30 16 0 1 2 3 (some 100) boot_machine =
          some (ret, fin) ∧
        fin.regs.bp = boot_machine.regs.bp ∧ fin.regs.sp = boot_machine.regs.sp :=
  ((hb_restores_frame_register (mock_platform false 1) 30 16 0 1 2 3 100 boot_machine
    (by decide)).2.2.2 rfl rfl).2.2

end Vmware
